import Mathlib

/-!
Verification of the character movement and collision-resolution core
(station-delta). The embedding models the TypeScript sources
`src/systems/collision/PlayerPhysics.ts`, `src/systems/collision/CollisionSystem.ts`,
`src/systems/collision/legacy/OBB.ts` and `src/core/CameraController.ts`
over exact rationals.

Modelling conventions, used consistently below:
* 3D vectors are rational triples.  Floating-point arithmetic is modelled by
  exact rational arithmetic.
* `Math.sqrt` has no exact rational counterpart, so every definition that
  needs a square root takes an explicit square-root oracle `s : ℚ → ℚ` as its
  first argument.  Theorems quantify over `s`; where a result depends on the
  oracle being exact, the theorem carries the explicit hypothesis
  `0 ≤ s q ∧ s q * s q = q` for the finitely many values involved.
* Comparisons of a vector length against a constant (`v.length() < c`) are
  translated to the equivalent squared comparison (`0 < c ∧ v.lengthSq < c²`),
  which is exact over the reals and oracle-free.
* Room geometry is modelled as axis-aligned boxes with translation-only world
  transforms (world scale 1); a mesh without geometry produces no ray hits,
  matching three.js (no triangles to intersect).  The 16 horizontal capsule
  ray directions come from `Math.sin`/`Math.cos` and are irrational, so the
  direction list is environment data; theorems hold for every direction list.
-/

namespace StationDelta

/-- Rational 3D vector, the model of `THREE.Vector3`. -/
structure Vec3 where
  x : ℚ
  y : ℚ
  z : ℚ
  deriving DecidableEq

namespace Vec3

def zero : Vec3 := ⟨0, 0, 0⟩

instance : Add Vec3 := ⟨fun a b => ⟨a.x + b.x, a.y + b.y, a.z + b.z⟩⟩

instance : Sub Vec3 := ⟨fun a b => ⟨a.x - b.x, a.y - b.y, a.z - b.z⟩⟩

instance : Neg Vec3 := ⟨fun a => ⟨-a.x, -a.y, -a.z⟩⟩

def scale (v : Vec3) (k : ℚ) : Vec3 := ⟨v.x * k, v.y * k, v.z * k⟩

def dot (a b : Vec3) : ℚ := a.x * b.x + a.y * b.y + a.z * b.z

def cross (a b : Vec3) : Vec3 :=
  ⟨a.y * b.z - a.z * b.y, a.z * b.x - a.x * b.z, a.x * b.y - a.y * b.x⟩

/-- `THREE.Vector3.lengthSq`. -/
def lengthSq (v : Vec3) : ℚ := v.x * v.x + v.y * v.y + v.z * v.z

@[simp] theorem add_def (a b : Vec3) : a + b = ⟨a.x + b.x, a.y + b.y, a.z + b.z⟩ := rfl

@[simp] theorem sub_def (a b : Vec3) : a - b = ⟨a.x - b.x, a.y - b.y, a.z - b.z⟩ := rfl

theorem lengthSq_nonneg (v : Vec3) : 0 ≤ v.lengthSq := by
  have hx := mul_self_nonneg v.x
  have hy := mul_self_nonneg v.y
  have hz := mul_self_nonneg v.z
  unfold lengthSq; linarith

theorem lengthSq_eq_zero_iff (v : Vec3) : v.lengthSq = 0 ↔ v = zero := by
  constructor
  · intro h
    have hx := mul_self_nonneg v.x
    have hy := mul_self_nonneg v.y
    have hz := mul_self_nonneg v.z
    unfold lengthSq at h
    have hx0 : v.x * v.x = 0 := by linarith
    have hy0 : v.y * v.y = 0 := by linarith
    have hz0 : v.z * v.z = 0 := by linarith
    cases v
    simp only [zero, mk.injEq]
    exact ⟨by nlinarith, by nlinarith, by nlinarith⟩
  · intro h; subst h; norm_num [lengthSq, zero]

theorem lengthSq_scale (v : Vec3) (k : ℚ) :
    (v.scale k).lengthSq = k * k * v.lengthSq := by
  unfold lengthSq scale; ring

@[simp] theorem scale_one (v : Vec3) : v.scale 1 = v := by
  unfold scale; cases v; simp

end Vec3

/-- Translation of `v.length() < c` into exact squared form:
over the reals, `sqrt sq < c ↔ 0 < c ∧ sq < c * c` whenever `0 ≤ sq`. -/
def lenLt (sq c : ℚ) : Prop := 0 < c ∧ sq < c * c

instance (sq c : ℚ) : Decidable (lenLt sq c) := by unfold lenLt; infer_instance

/-- `THREE.Vector3.normalize` (`divideScalar(length || 1)`), with the
square-root oracle `s`.  A zero vector is left unchanged, as in three.js. -/
def normalizeQ (s : ℚ → ℚ) (v : Vec3) : Vec3 :=
  if v.lengthSq = 0 then v else v.scale (1 / s v.lengthSq)

/-- `THREE.Vector3.setLength`. -/
def setLengthQ (s : ℚ → ℚ) (v : Vec3) (l : ℚ) : Vec3 := (normalizeQ s v).scale l

/-! ### Physics constants, from `src/utils/constants.ts` -/

def GRAVITY : ℚ := -981/100

def PLAYER_HEIGHT : ℚ := 8/5

def PLAYER_RADIUS : ℚ := 3/10

def PLAYER_SPEED : ℚ := 3

def PLAYER_JUMP_FORCE : ℚ := 5

def PLAYER_EYE_HEIGHT : ℚ := 8/5

/-! ### Camera decoupling layer, from `src/core/CameraController.ts` -/

/-- The camera-position state of `CameraController`: rendered camera position,
smoothing target, and the `positionInitialized` flag. -/
structure CameraState where
  cameraPos : Vec3
  targetPos : Vec3
  positionInitialized : Bool
  deriving DecidableEq

/-- `THREE.Vector3.lerp`. -/
def lerpV (a b : Vec3) (t : ℚ) : Vec3 := a + (b - a).scale t

/-- `positionSmoothingFactor = 0.03`. -/
def positionSmoothingFactor : ℚ := 3/100

/-- The state set up by the `CameraController` constructor body before
`setupCamera` runs: target at origin, position not initialized. -/
def cameraCtorInit : CameraState :=
  { cameraPos := Vec3.zero, targetPos := Vec3.zero, positionInitialized := false }

/-- `CameraController.setupCamera`: places the camera at the eye-height
origin, copies it into the smoothing target, and marks the position
initialized. -/
def setupCamera (st : CameraState) : CameraState :=
  let p : Vec3 := ⟨0, PLAYER_EYE_HEIGHT, 0⟩
  { st with cameraPos := p, targetPos := p, positionInitialized := true }

/-- A freshly constructed `CameraController` (the constructor always calls
`setupCamera`). -/
def mkCameraController : CameraState := setupCamera cameraCtorInit

/-- `CameraController.setPosition`. -/
def setPosition (st : CameraState) (p : Vec3) (useSmoothing : Bool) : CameraState :=
  let st1 := { st with targetPos := p }
  if !st1.positionInitialized || !useSmoothing then
    { st1 with cameraPos := p, positionInitialized := true }
  else
    { st1 with cameraPos := lerpV st1.cameraPos st1.targetPos positionSmoothingFactor }

/-! ### Tangent-plane projection, from `CollisionSystem.projectOntoTangentPlane` -/

/-- `CollisionSystem.projectOntoTangentPlane`:
`moveVector - (moveVector · normal) * normal`. -/
def projectOntoTangentPlane (moveVector normal : Vec3) : Vec3 :=
  moveVector - normal.scale (moveVector.dot normal)

/-! ### Legacy OBB and its SAT test, from `src/systems/collision/legacy/OBB.ts` -/

/-- The legacy `OBB` class: center, half extents and three (intended
normalized) axes. -/
structure LOBB where
  center : Vec3
  halfExtents : Vec3
  ax0 : Vec3
  ax1 : Vec3
  ax2 : Vec3
  deriving DecidableEq

/-- The radius term of `OBB.projectOntoAxis`: sum over the three local axes of
`halfExtents[i] * |axes[i] · normalizedAxis|`. -/
def projRadius (s : ℚ → ℚ) (o : LOBB) (axis : Vec3) : ℚ :=
  o.halfExtents.x * |o.ax0.dot (normalizeQ s axis)| +
    o.halfExtents.y * |o.ax1.dot (normalizeQ s axis)| +
    o.halfExtents.z * |o.ax2.dot (normalizeQ s axis)|

/-- `OBB.projectOntoAxis`, returning the `(min, max)` interval. -/
def projectOntoAxis (s : ℚ → ℚ) (o : LOBB) (axis : Vec3) : ℚ × ℚ :=
  let na := normalizeQ s axis
  let centerProjection := o.center.dot na
  let radius := projRadius s o axis
  (centerProjection - radius, centerProjection + radius)

/-- The candidate axis list of `OBB.testOBBvsOBB`: the six face axes followed
by the nine pairwise cross products, skipping cross products of length at most
`0.001` (squared form `1/1000000`) and normalizing the rest. -/
def satAxes (s : ℚ → ℚ) (o1 o2 : LOBB) : List Vec3 :=
  let crosses : List Vec3 :=
    [o1.ax0.cross o2.ax0, o1.ax0.cross o2.ax1, o1.ax0.cross o2.ax2,
     o1.ax1.cross o2.ax0, o1.ax1.cross o2.ax1, o1.ax1.cross o2.ax2,
     o1.ax2.cross o2.ax0, o1.ax2.cross o2.ax1, o1.ax2.cross o2.ax2]
  [o1.ax0, o1.ax1, o1.ax2, o2.ax0, o2.ax1, o2.ax2] ++
    (crosses.filter (fun c => decide ((1 : ℚ)/1000000 < c.lengthSq))).map (normalizeQ s)

/-- Separation of the two projected intervals on one axis
(`proj1.max < proj2.min || proj2.max < proj1.min`). -/
def sepOn (s : ℚ → ℚ) (o1 o2 : LOBB) (a : Vec3) : Prop :=
  (projectOntoAxis s o1 a).2 < (projectOntoAxis s o2 a).1 ∨
    (projectOntoAxis s o2 a).2 < (projectOntoAxis s o1 a).1

instance (s : ℚ → ℚ) (o1 o2 : LOBB) (a : Vec3) : Decidable (sepOn s o1 o2 a) := by
  unfold sepOn; infer_instance

/-- Overlap width of the two projected intervals on one axis
(`min(proj1.max - proj2.min, proj2.max - proj1.min)`). -/
def overlapOn (s : ℚ → ℚ) (o1 o2 : LOBB) (a : Vec3) : ℚ :=
  min ((projectOntoAxis s o1 a).2 - (projectOntoAxis s o2 a).1)
    ((projectOntoAxis s o2 a).2 - (projectOntoAxis s o1 a).1)

/-- One iteration of the minimum-penetration bookkeeping of `testOBBvsOBB`
(`none` stands for the initial `Infinity`). -/
def satStep (s : ℚ → ℚ) (o1 o2 : LOBB) (acc : Option (ℚ × Vec3)) (a : Vec3) :
    Option (ℚ × Vec3) :=
  let ov := overlapOn s o1 o2 a
  match acc with
  | none => some (ov, a)
  | some (m, ax) => if ov < m then some (ov, a) else some (m, ax)

/-- The axis loop of `testOBBvsOBB`: returns `none` if some axis separates the
boxes, otherwise the final minimum-penetration accumulator. -/
def satScan (s : ℚ → ℚ) (o1 o2 : LOBB) :
    List Vec3 → Option (ℚ × Vec3) → Option (Option (ℚ × Vec3))
  | [], acc => some acc
  | a :: rest, acc =>
    if sepOn s o1 o2 a then none
    else satScan s o1 o2 rest (satStep s o1 o2 acc a)

/-- Result record of `OBB.testOBBvsOBB`. -/
structure SATResult where
  colliding : Bool
  penetrationDepth : Option ℚ
  normal : Option Vec3
  deriving DecidableEq

/-- `OBB.testOBBvsOBB`: SAT over the candidate axes; on overlap, the minimum
overlap gives the penetration depth, and its axis is negated if needed so the
normal points from `o1` toward `o2`. -/
def testOBBvsOBB (s : ℚ → ℚ) (o1 o2 : LOBB) : SATResult :=
  match satScan s o1 o2 (satAxes s o1 o2) none with
  | none => ⟨false, none, none⟩
  | some none => ⟨true, none, none⟩
  | some (some (m, ax)) =>
    let centerDiff := o2.center - o1.center
    ⟨true, some m, some (if centerDiff.dot ax < 0 then -ax else ax)⟩

/-! ### Geometry index and ray queries, from `src/systems/collision/CollisionSystem.ts` -/

/-- `THREE.Box3` (an axis-aligned box, `min`/`max` corners). -/
structure Box3 where
  min : Vec3
  max : Vec3
  deriving DecidableEq

/-- A registered room mesh: identity, optional local bounding box (a mesh
without computable geometry has `geom = none` and yields no ray hits), and a
translation-only world transform. -/
structure RoomMesh where
  id : ℕ
  geom : Option Box3
  pos : Vec3
  deriving DecidableEq

/-- One ray intersection (`THREE.Intersection`): distance along the ray, hit
point, world-space face normal and the struck mesh. -/
structure RayHit where
  dist : ℚ
  point : Vec3
  normal : Vec3
  mesh : RoomMesh
  deriving DecidableEq

/-- Per-axis slab classification for the ray/box test. -/
inductive SlabR where
  | miss : SlabR
  | free : SlabR
  | seg : ℚ → ℚ → Vec3 → SlabR
  deriving DecidableEq

/-- One slab of the ray/box test: `miss` when a zero direction component lies
outside the slab, `free` when inside, otherwise the entry/exit parameters and
the outward normal of the entered face. -/
def slab (oi di mn mx : ℚ) (axis : Vec3) : SlabR :=
  if di = 0 then (if mn ≤ oi ∧ oi ≤ mx then .free else .miss)
  else if 0 < di then .seg ((mn - oi) / di) ((mx - oi) / di) (axis.scale (-1))
  else .seg ((mx - oi) / di) ((mn - oi) / di) axis

def pickLater (a b : Option (ℚ × Vec3)) : Option (ℚ × Vec3) :=
  match a, b with
  | none, b => b
  | some p, none => some p
  | some (t, n), some (t', n') => if t < t' then some (t', n') else some (t, n)

def pickMin (a b : Option ℚ) : Option ℚ :=
  match a, b with
  | none, b => b
  | some t, none => some t
  | some t, some t' => some (min t t')

def slabEntry : SlabR → Option (ℚ × Vec3)
  | .miss => none
  | .free => none
  | .seg t1 _ n => some (t1, n)

def slabExit : SlabR → Option ℚ
  | .miss => none
  | .free => none
  | .seg _ t2 _ => some t2

/-- Front-face ray/box intersection: the first intersection reported by a
three.js raycast against a (front-sided) box mesh is the entering face, hit
only when the entry parameter is non-negative (a ray starting inside the box
sees only back faces and reports nothing). -/
def intersectRayBox (o d : Vec3) (b : Box3) : Option (ℚ × Vec3) :=
  let sx := slab o.x d.x b.min.x b.max.x ⟨1, 0, 0⟩
  let sy := slab o.y d.y b.min.y b.max.y ⟨0, 1, 0⟩
  let sz := slab o.z d.z b.min.z b.max.z ⟨0, 0, 1⟩
  if sx = .miss ∨ sy = .miss ∨ sz = .miss then none
  else
    match pickLater (pickLater (slabEntry sx) (slabEntry sy)) (slabEntry sz),
        pickMin (pickMin (slabExit sx) (slabExit sy)) (slabExit sz) with
    | some (tmin, n), some tmax =>
      if 0 ≤ tmin ∧ tmin ≤ tmax then some (tmin, n) else none
    | _, _ => none

/-- Ray hits contributed by one registered room mesh. -/
def meshHits (o d : Vec3) (m : RoomMesh) : List RayHit :=
  match m.geom with
  | none => []
  | some b =>
    match intersectRayBox o d ⟨b.min + m.pos, b.max + m.pos⟩ with
    | none => []
    | some (t, n) => [⟨t, o + d.scale t, n, m⟩]

/-- Stable insertion keeping equal distances in their original order, the
model of the ascending `sort` in `CollisionSystem.raycast`. -/
def insertHit (h : RayHit) : List RayHit → List RayHit
  | [] => [h]
  | h' :: rest => if h.dist < h'.dist then h :: h' :: rest else h' :: insertHit h rest

def sortHits : List RayHit → List RayHit
  | [] => []
  | h :: rest => insertHit h (sortHits rest)

/-- A registered object mesh for OBB collision: world position, registered
half size, and current rotation basis (the OBB is refreshed from these before
every query, as `updateObjectOBBs` does). -/
structure ObjEntry where
  pos : Vec3
  halfSize : Vec3
  rotC0 : Vec3
  rotC1 : Vec3
  rotC2 : Vec3
  deriving DecidableEq

/-- The collision environment: the two registries of `CollisionSystem`
(`meshes` for ray casting, `objectMeshes` for OBB tests) plus the horizontal
capsule-ray direction list (`generateHorizontalDirections(16)` in the source;
its `sin`/`cos` values are irrational, so the list is environment data). -/
structure Env where
  rooms : List RoomMesh
  objects : List ObjEntry
  dirs : List Vec3

/-- Concatenated per-mesh hits in registration order. -/
def allHits (rooms : List RoomMesh) (o d : Vec3) : List RayHit :=
  rooms.foldr (fun m acc => meshHits o d m ++ acc) []

/-- `CollisionSystem.raycast`: concatenated per-mesh hits in registration
order, sorted ascending by distance. -/
def raycastAll (env : Env) (o d : Vec3) : List RayHit :=
  sortHits (allHits env.rooms o d)

/-- `CollisionSystem.getObjectHeight`: world-space vertical extent of a mesh,
`0` when the mesh has no computable bounding box. -/
def getObjectHeight (m : RoomMesh) : ℚ :=
  match m.geom with
  | none => 0
  | some b => b.max.y - b.min.y

/-- `MAX_GROUND_THICKNESS = PLAYER_HEIGHT * 0.1`. -/
def maxGroundThickness : ℚ := PLAYER_HEIGHT * (1/10)

def downDir : Vec3 := ⟨0, -1, 0⟩

/-- The inner loop of `findGround`: the first hit of the continued (downward)
ray that strikes a different mesh, within the search distance, and thin
enough to count as ground. -/
def findContinue (origMesh : RoomMesh) (maxDistance : ℚ) : List RayHit → Option RayHit
  | [] => none
  | ch :: rest =>
    if ch.mesh.id ≠ origMesh.id ∧ ch.dist ≤ maxDistance ∧
        getObjectHeight ch.mesh ≤ maxGroundThickness then
      some ch
    else findContinue origMesh maxDistance rest

/-- The outer loop of `findGround` over the sorted downward-ray hits. -/
def findGroundLoop (env : Env) (maxDistance : ℚ) : List RayHit → Option RayHit
  | [] => none
  | hit :: rest =>
    if maxDistance < hit.dist then findGroundLoop env maxDistance rest
    else if getObjectHeight hit.mesh ≤ maxGroundThickness then some hit
    else
      match hit.mesh.geom with
      | none => findGroundLoop env maxDistance rest
      | some b =>
        let worldBottom : Vec3 := hit.mesh.pos + ⟨0, b.min.y, 0⟩
        match findContinue hit.mesh maxDistance (raycastAll env worldBottom downDir) with
        | some ch => some { ch with dist := ch.dist + hit.dist }
        | none => findGroundLoop env maxDistance rest

/-- `CollisionSystem.findGround`: downward probe accepting only surfaces whose
own vertical extent is at most 10% of the player height; a thicker first hit
re-casts from the bottom face of the struck object. -/
def findGround (env : Env) (position : Vec3) (maxDistance : ℚ) : Option RayHit :=
  findGroundLoop env maxDistance (raycastAll env position downDir)

/-- The two vertical sample heights of `checkCapsuleCollision`
(`numRows = 2`, from `PLAYER_RADIUS * 4` up to eye height). -/
def verticalPositionsOf : List ℚ :=
  let numRows : ℕ := 2
  let baseHeight := PLAYER_RADIUS * 4
  let topHeight : ℚ := 8/5
  let verticalRange := topHeight - baseHeight
  (List.range numRows).map (fun i => baseHeight + verticalRange * ((i : ℚ) / ((numRows : ℚ) - 1)))

/-- Inner direction loop of `checkCapsuleCollision`: only the nearest
intersection of each ray is examined. -/
def capsuleScanDirs (env : Env) (radius : ℚ) (rayStart : Vec3) : List Vec3 → Option RayHit
  | [] => none
  | dir :: rest =>
    match raycastAll env rayStart dir with
    | [] => capsuleScanDirs env radius rayStart rest
    | hit :: _ =>
      if hit.dist < radius then some hit else capsuleScanDirs env radius rayStart rest

def capsuleScanRows (env : Env) (radius : ℚ) (position : Vec3) : List ℚ → Option RayHit
  | [] => none
  | h :: rest =>
    let rayStart : Vec3 := { position with y := position.y - (8/5 - h) }
    match capsuleScanDirs env radius rayStart env.dirs with
    | some r => some r
    | none => capsuleScanRows env radius position rest

/-- `CollisionSystem.checkCapsuleCollision`: horizontal rays from the sample
heights in the environment's direction list; the first nearest hit closer
than the radius is reported. -/
def checkCapsuleCollision (env : Env) (position : Vec3) (radius : ℚ) : Option RayHit :=
  capsuleScanRows env radius position verticalPositionsOf

/-! ### Object OBBs, from `CollisionSystem` and `three/addons/math/OBB.js` -/

/-- The `three/addons` `OBB`: center, half size and rotation basis columns. -/
structure TOBB where
  center : Vec3
  halfSize : Vec3
  rotC0 : Vec3
  rotC1 : Vec3
  rotC2 : Vec3
  deriving DecidableEq

/-- `Number.EPSILON = 2⁻⁵²`. -/
def numberEpsilon : ℚ := 1 / 4503599627370496

/-- Modelled from `three/addons/math/OBB.js` `OBB.intersectsOBB` (an external
dependency of `CollisionSystem.checkObjectCollisions`): the 15-axis
Gottschalk SAT test with the epsilon-padded absolute rotation matrix. -/
def intersectsOBB (A B : TOBB) : Bool :=
  let ae0 := A.halfSize.x; let ae1 := A.halfSize.y; let ae2 := A.halfSize.z
  let be0 := B.halfSize.x; let be1 := B.halfSize.y; let be2 := B.halfSize.z
  let R00 := A.rotC0.dot B.rotC0; let R01 := A.rotC0.dot B.rotC1; let R02 := A.rotC0.dot B.rotC2
  let R10 := A.rotC1.dot B.rotC0; let R11 := A.rotC1.dot B.rotC1; let R12 := A.rotC1.dot B.rotC2
  let R20 := A.rotC2.dot B.rotC0; let R21 := A.rotC2.dot B.rotC1; let R22 := A.rotC2.dot B.rotC2
  let v := B.center - A.center
  let t0 := v.dot A.rotC0; let t1 := v.dot A.rotC1; let t2 := v.dot A.rotC2
  let e := numberEpsilon
  let aR00 := |R00| + e; let aR01 := |R01| + e; let aR02 := |R02| + e
  let aR10 := |R10| + e; let aR11 := |R11| + e; let aR12 := |R12| + e
  let aR20 := |R20| + e; let aR21 := |R21| + e; let aR22 := |R22| + e
  if |t0| > ae0 + (be0 * aR00 + be1 * aR01 + be2 * aR02) then false
  else if |t1| > ae1 + (be0 * aR10 + be1 * aR11 + be2 * aR12) then false
  else if |t2| > ae2 + (be0 * aR20 + be1 * aR21 + be2 * aR22) then false
  else if |t0 * R00 + t1 * R10 + t2 * R20| > (ae0 * aR00 + ae1 * aR10 + ae2 * aR20) + be0 then false
  else if |t0 * R01 + t1 * R11 + t2 * R21| > (ae0 * aR01 + ae1 * aR11 + ae2 * aR21) + be1 then false
  else if |t0 * R02 + t1 * R12 + t2 * R22| > (ae0 * aR02 + ae1 * aR12 + ae2 * aR22) + be2 then false
  else if |t2 * R10 - t1 * R20| > (ae1 * aR20 + ae2 * aR10) + (be1 * aR02 + be2 * aR01) then false
  else if |t2 * R11 - t1 * R21| > (ae1 * aR21 + ae2 * aR11) + (be0 * aR02 + be2 * aR00) then false
  else if |t2 * R12 - t1 * R22| > (ae1 * aR22 + ae2 * aR12) + (be0 * aR01 + be1 * aR00) then false
  else if |t0 * R20 - t2 * R00| > (ae0 * aR20 + ae2 * aR00) + (be1 * aR12 + be2 * aR11) then false
  else if |t0 * R21 - t2 * R01| > (ae0 * aR21 + ae2 * aR01) + (be0 * aR12 + be2 * aR10) then false
  else if |t0 * R22 - t2 * R02| > (ae0 * aR22 + ae2 * aR02) + (be0 * aR11 + be1 * aR10) then false
  else if |t1 * R00 - t0 * R10| > (ae0 * aR10 + ae1 * aR00) + (be1 * aR22 + be2 * aR21) then false
  else if |t1 * R01 - t0 * R11| > (ae0 * aR11 + ae1 * aR01) + (be0 * aR22 + be2 * aR20) then false
  else if |t1 * R02 - t0 * R12| > (ae0 * aR12 + ae1 * aR02) + (be0 * aR21 + be1 * aR20) then false
  else true

/-- `updateOBB` applied at query time: the OBB of a registered object mesh is
rebuilt from its current transform (`center := mesh.position`, rotation from
the mesh's world matrix, half size fixed at registration). -/
def entryOBB (e : ObjEntry) : TOBB :=
  ⟨e.pos, e.halfSize, e.rotC0, e.rotC1, e.rotC2⟩

/-- `CollisionSystem.createPlayerOBB`: axis-aligned box of half size
`(PLAYER_RADIUS, PLAYER_HEIGHT/2, PLAYER_RADIUS)` centered at the eye
position lowered by `PLAYER_EYE_HEIGHT - PLAYER_HEIGHT/2`. -/
def createPlayerOBB (position : Vec3) : TOBB :=
  { center := { position with y := position.y - (PLAYER_EYE_HEIGHT - PLAYER_HEIGHT / 2) }
    halfSize := ⟨PLAYER_RADIUS, PLAYER_HEIGHT / 2, PLAYER_RADIUS⟩
    rotC0 := ⟨1, 0, 0⟩, rotC1 := ⟨0, 1, 0⟩, rotC2 := ⟨0, 0, 1⟩ }

/-- `CollisionSystem.checkObjectCollisions`: refresh every object OBB and
return the first registered object intersecting the player OBB. -/
def checkObjectCollisions (env : Env) (playerOBB : TOBB) : Option ObjEntry :=
  env.objects.find? (fun e => intersectsOBB playerOBB (entryOBB e))

/-- `CollisionSystem.resolvePenetration`: sphere-approximation push-out along
the object→player direction, clamped to a per-second maximum
(`MAX_PUSH_PER_SECOND = PLAYER_SPEED * 2`, `MARGIN = 0.0005`). -/
def resolvePenetration (s : ℚ → ℚ) (playerOBB objectOBB : TOBB) (dt : ℚ) : Vec3 :=
  let diff := playerOBB.center - objectOBB.center
  let direction := if diff.lengthSq < 1/1000000 then (⟨1, 0, 0⟩ : Vec3) else normalizeQ s diff
  let objectRadius := max (max objectOBB.halfSize.x objectOBB.halfSize.y) objectOBB.halfSize.z
  let playerRadius := max playerOBB.halfSize.x playerOBB.halfSize.y
  let minSeparation := objectRadius + playerRadius
  if lenLt diff.lengthSq minSeparation then
    let currentDistance := s diff.lengthSq
    let penetrationDepth := minSeparation - currentDistance
    let targetPush := penetrationDepth + 1/2000
    let maxPushThisStep := max 0 (PLAYER_SPEED * 2 * dt)
    let pushDistance := if 0 < maxPushThisStep then min targetPush maxPushThisStep else targetPush
    direction.scale pushDistance
  else Vec3.zero

/-- `CollisionSystem.calculateCollisionNormal`: normalized player−object
direction, world-up when the positions coincide. -/
def calculateCollisionNormal (s : ℚ → ℚ) (playerPos objectPos : Vec3) : Vec3 :=
  let n := playerPos - objectPos
  if 0 < n.lengthSq then normalizeQ s n else ⟨0, 1, 0⟩

/-! ### Player physics, from `src/systems/collision/PlayerPhysics.ts` -/

/-- `resolvedPosition` of the object branch of `slideCollision`:
destination plus the penetration push-out. -/
def resolvedPositionOf (s : ℚ → ℚ) (destination : Vec3) (c : ObjEntry) (dt : ℚ) : Vec3 :=
  destination + resolvePenetration s (createPlayerOBB destination) (entryOBB c) dt

/-- The horizontalized collision normal of the object branch: vertical
component dropped, world-up substituted if that leaves a zero vector. -/
def slideNormalOf (s : ℚ → ℚ) (resolved : Vec3) (c : ObjEntry) : Vec3 :=
  let cn0 := calculateCollisionNormal s resolved c.pos
  let cnH : Vec3 := ⟨cn0.x, 0, cn0.z⟩
  if cnH.lengthSq = 0 then ⟨0, 1, 0⟩ else cnH

/-- The slide vector of the object branch: the original movement projected
onto the tangent plane of the horizontalized normal, then forced horizontal. -/
def slideVectorOf (s : ℚ → ℚ) (resolved velocity : Vec3) (c : ObjEntry) : Vec3 :=
  let sv0 := projectOntoTangentPlane velocity (slideNormalOf s resolved c)
  ⟨sv0.x, 0, sv0.z⟩

/-- `COLLISION_SPEED_FACTOR = 0.4`. -/
def COLLISION_SPEED_FACTOR : ℚ := 2/5

/-- The length-limited slide vector: slide length clamped to
`COLLISION_SPEED_FACTOR` times the original movement length. -/
def limitedSlideOf (s : ℚ → ℚ) (velocity sv : Vec3) : Vec3 :=
  let baseDistance := s velocity.lengthSq
  let maxSlideDistance := baseDistance * COLLISION_SPEED_FACTOR
  let slideLength := min (s sv.lengthSq) maxSlideDistance
  (normalizeQ s sv).scale slideLength

/-- The retry loop over `slideAttempts = [0.75, 0.5, 0.25, 0.1]`: position of
the first non-colliding reduced slide, plus the number of collision queries
spent. -/
def slideAttemptLoop (env : Env) (base limited : Vec3) : List ℚ → Option Vec3 × ℕ
  | [] => (none, 0)
  | f :: rest =>
    if (checkObjectCollisions env (createPlayerOBB (base + limited.scale f))).isSome then
      let r := slideAttemptLoop env base limited rest
      (r.1, r.2 + 1)
    else (some (base + limited.scale f), 1)

/-- Step 1 of `slideCollision` (the object-OBB branch), returning the final
position of that branch and the number of object-collision queries it made. -/
def objectPhase (s : ℚ → ℚ) (env : Env) (destination velocity : Vec3) (dt : ℚ) :
    Vec3 × ℕ :=
  match checkObjectCollisions env (createPlayerOBB destination) with
  | none => (destination, 1)
  | some c =>
    let resolved := resolvedPositionOf s destination c dt
    let sv := slideVectorOf s resolved velocity c
    if sv.lengthSq ≤ 1/1000000 then (resolved, 1)
    else
      let limited := limitedSlideOf s velocity sv
      let slidePosition := resolved + limited
      if (checkObjectCollisions env (createPlayerOBB slidePosition)).isSome then
        let r := slideAttemptLoop env resolved limited [3/4, 1/2, 1/4, 1/10]
        match r.1 with
        | some p => (p, 2 + r.2)
        | none => (resolved, 2 + r.2)
      else (slidePosition, 2)

/-- Modelled from the spec's description of the slide retry (spec §4.4 step
3b / claim C5): clamp the slide, try the full clamped slide and then the
fractions 75%, 50%, 25%, 10% of it in that order, take the first
non-colliding one, and hold the resolved position if every fraction still
collides. -/
def slideRetrySpec (env : Env) (base limited : Vec3) : Vec3 :=
  match ([1, 3/4, 1/2, 1/4, 1/10] : List ℚ).find?
      (fun f => (checkObjectCollisions env (createPlayerOBB (base + limited.scale f))).isNone) with
  | some f => base + limited.scale f
  | none => base

/-- Instrumentation for `slideCollision`: recursion steps consumed and
object/room collision queries performed. -/
structure SlideStats where
  depth : ℕ
  objQ : ℕ
  capQ : ℕ
  deriving DecidableEq

/-- `PlayerPhysics.slideCollision` with instrumentation.  The base case
(velocity squared length below `0.0001`, or recursion exhausted) returns the
input position untouched with zero statistics. -/
def slideAux (s : ℚ → ℚ) (env : Env) (dt : ℚ) :
    ℕ → Vec3 → Vec3 → Vec3 × SlideStats
  | 0, position, _ => (position, ⟨0, 0, 0⟩)
  | fuel + 1, position, velocity =>
    if velocity.lengthSq < 1/10000 then (position, ⟨0, 0, 0⟩)
    else
      let destination := position + velocity
      let op := objectPhase s env destination velocity dt
      let finalPosition := op.1
      match checkCapsuleCollision env finalPosition PLAYER_RADIUS with
      | none => (finalPosition, ⟨0, op.2, 1⟩)
      | some rc =>
        let newPosition := rc.point + rc.normal.scale (PLAYER_RADIUS + 1/1000)
        let slidingPlaneNormal := normalizeQ s (rc.point - newPosition)
        let distanceToPlane := (finalPosition - rc.point).dot slidingPlaneNormal
        let projectedDestination := finalPosition - slidingPlaneNormal.scale distanceToPlane
        let newVelocity := projectedDestination - rc.point
        let rec' := slideAux s env dt fuel newPosition newVelocity
        (rec'.1, ⟨rec'.2.depth + 1, rec'.2.objQ + op.2, rec'.2.capQ + 1⟩)

/-- `PlayerPhysics.slideCollision` (default `maxRecursion = 3`). -/
def slideCollision (s : ℚ → ℚ) (env : Env) (position velocity : Vec3) (dt : ℚ)
    (maxRecursion : ℕ := 3) : Vec3 :=
  (slideAux s env dt maxRecursion position velocity).1

/-- The input flags consumed by `PlayerPhysics.update`. -/
structure Input where
  moveForward : Bool
  moveBackward : Bool
  moveLeft : Bool
  moveRight : Bool
  jump : Bool
  deriving DecidableEq

def noInput : Input := ⟨false, false, false, false, false⟩

/-- The player state owned by `PlayerPhysics` (plus the `canJump` flag that
the source keeps on the `CameraController`). -/
structure PState where
  position : Vec3
  velocity : Vec3
  pushbackVelocity : Vec3
  isOnGround : Bool
  canJump : Bool
  needsGroundSnap : Bool
  lastSafePosition : Option Vec3
  deriving DecidableEq

/-- The horizontal movement vector built from the input flags and the camera
direction/right vectors, with the vertical component dropped. -/
def moveVectorOf (inp : Input) (direction right : Vec3) : Vec3 :=
  let mv := Vec3.zero
  let mv := if inp.moveForward then mv + direction else mv
  let mv := if inp.moveBackward then mv - direction else mv
  let mv := if inp.moveRight then mv + right else mv
  let mv := if inp.moveLeft then mv - right else mv
  ⟨mv.x, 0, mv.z⟩

/-- The sub-step loop of `update`: advance in steps of at most half the
player radius, handing each step (with its proportional share of the frame
time) to `slideCollision`.  The fuel is chosen large enough that the loop
always runs to its `remaining ≤ 0.0001` exit. -/
def substepLoop (s : ℚ → ℚ) (env : Env) (moveVector : Vec3) (totalDistance dt : ℚ) :
    ℕ → Vec3 → ℚ → Vec3
  | 0, pos, _ => pos
  | fuel + 1, pos, remaining =>
    if remaining ≤ 1/10000 then pos
    else
      let stepDistance := min (PLAYER_RADIUS * (1/2)) remaining
      let stepVelocity := setLengthQ s moveVector stepDistance
      let stepFraction := stepDistance / totalDistance
      let stepDeltaTime := dt * stepFraction
      substepLoop s env moveVector totalDistance dt fuel
        (slideCollision s env pos stepVelocity stepDeltaTime) (remaining - stepDistance)

/-- Step 1–3 of `update`: horizontal movement with sub-stepping. -/
def stageA (s : ℚ → ℚ) (env : Env) (inp : Input) (direction right : Vec3) (dt : ℚ)
    (st : PState) : PState :=
  let mv := moveVectorOf inp direction right
  if 0 < mv.lengthSq then
    let mv' := (normalizeQ s mv).scale (PLAYER_SPEED * dt)
    let totalDistance := s mv'.lengthSq
    let fuel := (Int.toNat ⌈totalDistance / (PLAYER_RADIUS * (1/2))⌉) + 2
    { st with position := substepLoop s env mv' totalDistance dt fuel st.position totalDistance }
  else st

/-- Step 4–5 of `update`: gravity, jump, vertical displacement. -/
def stageB (inp : Input) (dt : ℚ) (st : PState) : PState :=
  let v0 : Vec3 := { st.velocity with y := st.velocity.y + GRAVITY * dt }
  if inp.jump && st.isOnGround && st.canJump then
    let v1 : Vec3 := { v0 with y := PLAYER_JUMP_FORCE }
    { st with velocity := v1, isOnGround := false, canJump := false,
              position := { st.position with y := st.position.y + v1.y * dt } }
  else
    { st with velocity := v0,
              position := { st.position with y := st.position.y + v0.y * dt } }

/-- Step 6 of `update`: ground resolution (snap-after-teleport, landing, or
airborne). -/
def stageC (env : Env) (st : PState) : PState :=
  let maxD : ℚ := if st.needsGroundSnap then 100 else 10
  match findGround env st.position maxD with
  | some gh =>
    let targetCameraY := gh.point.y + PLAYER_EYE_HEIGHT
    if st.needsGroundSnap then
      let p : Vec3 := { st.position with y := targetCameraY }
      { st with position := p, velocity := { st.velocity with y := 0 },
                isOnGround := true, canJump := true, needsGroundSnap := false,
                lastSafePosition := some p }
    else if st.position.y ≤ targetCameraY then
      let p : Vec3 := { st.position with y := targetCameraY }
      { st with position := p, velocity := { st.velocity with y := 0 },
                isOnGround := true, canJump := true, lastSafePosition := some p }
    else { st with isOnGround := false }
  | none => { st with isOnGround := false }

/-- `PENETRATION_THRESHOLD = 0.2`, `PUSHBACK_MULTIPLIER = 2.0`. -/
def PENETRATION_THRESHOLD : ℚ := 1/5

def PUSHBACK_MULTIPLIER : ℚ := 2

/-- Step 7 of `update` (first half): final room collision check with direct
offset for shallow penetrations and pushback-velocity accumulation for deep
ones. -/
def stageD (s : ℚ → ℚ) (env : Env) (dt : ℚ) (st : PState) : PState :=
  match checkCapsuleCollision env st.position PLAYER_RADIUS with
  | none => st
  | some fc =>
    let push := st.position - fc.point
    if lenLt push.lengthSq PLAYER_RADIUS then
      let basePushDistance := PLAYER_RADIUS - s push.lengthSq
      let threshold := PLAYER_RADIUS * PENETRATION_THRESHOLD
      if threshold < basePushDistance then
        let pushbackStrength := basePushDistance / threshold * PUSHBACK_MULTIPLIER
        let pushbackDistance := basePushDistance * pushbackStrength
        let pushbackSpeed := pushbackDistance / dt
        { st with pushbackVelocity := st.pushbackVelocity + fc.normal.scale pushbackSpeed }
      else { st with position := st.position + fc.normal.scale basePushDistance }
    else st

/-- `PUSHBACK_DAMPING = 0.85`. -/
def PUSHBACK_DAMPING : ℚ := 17/20

/-- Step 7 of `update` (second half): apply and dampen the pushback
velocity. -/
def stageE (dt : ℚ) (st : PState) : PState :=
  if 1/10000 < st.pushbackVelocity.lengthSq then
    let p := st.position + st.pushbackVelocity.scale dt
    let pb := st.pushbackVelocity.scale PUSHBACK_DAMPING
    let pb := if pb.lengthSq < 1/10000 then Vec3.zero else pb
    { st with position := p, pushbackVelocity := pb }
  else st

/-- `MIN_FALL_Y = -10`. -/
def MIN_FALL_Y : ℚ := -10

/-- Step 8 of `update`: the fall-through safety net. -/
def applyFallSafety (st : PState) : PState :=
  if st.position.y < MIN_FALL_Y then
    { st with
      position := match st.lastSafePosition with
        | some safe => safe
        | none => { st.position with y := MIN_FALL_Y }
      velocity := Vec3.zero
      pushbackVelocity := Vec3.zero
      isOnGround := false
      canJump := false }
  else st

/-- `PlayerPhysics.update` up to (but not including) the fall-through safety
net. -/
def updateCore (s : ℚ → ℚ) (env : Env) (inp : Input) (direction right : Vec3)
    (dt : ℚ) (st : PState) : PState :=
  stageE dt (stageD s env dt (stageC env (stageB inp dt (stageA s env inp direction right dt st))))

/-- `PlayerPhysics.update`: one full physics frame. -/
def update (s : ℚ → ℚ) (env : Env) (inp : Input) (direction right : Vec3)
    (dt : ℚ) (st : PState) : PState :=
  applyFallSafety (updateCore s env inp direction right dt st)

/-! ### Hypothesis abbreviations -/

/-- All three axes of a legacy OBB have unit (squared) length. -/
def axesUnit (o : LOBB) : Prop :=
  o.ax0.lengthSq = 1 ∧ o.ax1.lengthSq = 1 ∧ o.ax2.lengthSq = 1

/-- Non-negative half extents (the data-model invariant of an OBB). -/
def heNonneg (o : LOBB) : Prop :=
  0 ≤ o.halfExtents.x ∧ 0 ≤ o.halfExtents.y ∧ 0 ≤ o.halfExtents.z

/-- The square-root oracle is exact and non-negative at the value `q`. -/
def sqrtExactAt (s : ℚ → ℚ) (q : ℚ) : Prop := 0 ≤ s q ∧ s q * s q = q

/-! ### Concrete instances used by the witnesses -/

/-- A trivial square-root oracle for paths that never consult it. -/
def sZero : ℚ → ℚ := fun _ => 0

/-- An oracle exact on the only value needed by unit axes. -/
def sUnit : ℚ → ℚ := fun q => if q = 1 then 1 else 0

/-- Oracle exact on the squared lengths arising in the C5 witness. -/
def sC5 : ℚ → ℚ := fun q => if q = 1/100 then 1/10 else if q = 49/100 then 7/10 else 0

/-- The empty collision environment. -/
def envEmpty : Env := ⟨[], [], []⟩

/-- A thin floor slab: vertical extent `0.05`, top face at `y = 0`. -/
def floorMesh : RoomMesh := ⟨0, some ⟨⟨-10, -1/20, -10⟩, ⟨10, 0, 10⟩⟩, Vec3.zero⟩

/-- A thick table: vertical extent `0.6`, top face at `y = 1`. -/
def tableMesh : RoomMesh := ⟨1, some ⟨⟨-2, 2/5, -2⟩, ⟨2, 1, 2⟩⟩, Vec3.zero⟩

/-- A second thick object between table and floor: vertical extent `0.25`. -/
def crateMesh : RoomMesh := ⟨2, some ⟨⟨-2, 1/10, -2⟩, ⟨2, 7/20, 2⟩⟩, Vec3.zero⟩

/-- A mesh without computable bounding-box data. -/
def boxlessMesh : RoomMesh := ⟨5, none, ⟨0, 3, 0⟩⟩

/-- Thick table above a thin floor (the C3 scenario). -/
def envTable : Env := ⟨[tableMesh, floorMesh], [], []⟩

/-- Table above a second thick object above the floor. -/
def envStacked : Env := ⟨[tableMesh, crateMesh, floorMesh], [], []⟩

/-- Only a thick object, no ground below it. -/
def envThickOnly : Env := ⟨[tableMesh], [], []⟩

/-- Floor plus a mesh with no bounding-box data. -/
def envBoxless : Env := ⟨[boxlessMesh, floorMesh], [], []⟩

/-- Floor-only environment with a single horizontal probe direction. -/
def envFloor : Env := ⟨[floorMesh], [], [⟨1, 0, 0⟩]⟩

/-- A unit cube at the origin (legacy OBB, world axes). -/
def cubeAtOrigin : LOBB :=
  ⟨Vec3.zero, ⟨1/2, 1/2, 1/2⟩, ⟨1, 0, 0⟩, ⟨0, 1, 0⟩, ⟨0, 0, 1⟩⟩

/-- A unit cube at `(3,0,0)` (fully separated from `cubeAtOrigin`). -/
def cubeFarX : LOBB :=
  ⟨⟨3, 0, 0⟩, ⟨1/2, 1/2, 1/2⟩, ⟨1, 0, 0⟩, ⟨0, 1, 0⟩, ⟨0, 0, 1⟩⟩

/-- A box at `(1,2,3)` with half extents `(1,2,3)` (world axes). -/
def boxA : LOBB := ⟨⟨1, 2, 3⟩, ⟨1, 2, 3⟩, ⟨1, 0, 0⟩, ⟨0, 1, 0⟩, ⟨0, 0, 1⟩⟩

/-- A box with the same center and half extents `(1/2, 10, 10)`. -/
def boxB : LOBB := ⟨⟨1, 2, 3⟩, ⟨1/2, 10, 10⟩, ⟨1, 0, 0⟩, ⟨0, 1, 0⟩, ⟨0, 0, 1⟩⟩

/-- An axis-aligned object cube of half size `0.5` centered at `(0, 0.8, 0)`
(at the player's OBB center height). -/
def objCube : ObjEntry := ⟨⟨0, 4/5, 0⟩, ⟨1/2, 1/2, 1/2⟩, ⟨1, 0, 0⟩, ⟨0, 1, 0⟩, ⟨0, 0, 1⟩⟩

/-- Environment with the single object cube. -/
def envObj : Env := ⟨[], [objCube], []⟩

/-- Player state resting on the floor of `envFloor` at the eye height. -/
def stResting : PState :=
  { position := ⟨0, 8/5, 0⟩, velocity := Vec3.zero, pushbackVelocity := Vec3.zero,
    isOnGround := true, canJump := true, needsGroundSnap := false,
    lastSafePosition := none }

/-- Player state falling fast with a recorded safe position. -/
def stFalling : PState :=
  { position := Vec3.zero, velocity := ⟨0, -15, 0⟩, pushbackVelocity := Vec3.zero,
    isOnGround := false, canJump := false, needsGroundSnap := false,
    lastSafePosition := some ⟨2, 8/5, 3⟩ }

/-! ## Theorems -/

theorem scale_zero (v : Vec3) : v.scale 0 = Vec3.zero := by
  simp [Vec3.scale, Vec3.zero]

theorem sub_zero_vec (v : Vec3) : v - Vec3.zero = v := by
  cases v; simp [Vec3.zero]

/-- C10: for every movement vector `v` and unit-length normal `n`, the
tangent-plane projection is orthogonal to `n` and idempotent. -/
theorem c10_tangent_projection_orthogonal_idempotent (v n : Vec3)
    (hn : n.lengthSq = 1) :
    (projectOntoTangentPlane v n).dot n = 0 ∧
      projectOntoTangentPlane (projectOntoTangentPlane v n) n =
        projectOntoTangentPlane v n := by
  have hd : (projectOntoTangentPlane v n).dot n = 0 := by
    simp only [projectOntoTangentPlane, Vec3.dot, Vec3.scale, Vec3.sub_def] at *
    unfold Vec3.lengthSq at hn
    linear_combination (-(v.x * n.x + v.y * n.y + v.z * n.z)) * hn
  refine ⟨hd, ?_⟩
  show projectOntoTangentPlane v n -
      n.scale ((projectOntoTangentPlane v n).dot n) = projectOntoTangentPlane v n
  rw [hd, scale_zero, sub_zero_vec]

/-- C10 witness at `v = (1,2,3)`, `n = (0,1,0)`. -/
theorem c10_witness :
    (Vec3.lengthSq ⟨0, 1, 0⟩ = 1) ∧
      ((projectOntoTangentPlane ⟨1, 2, 3⟩ ⟨0, 1, 0⟩).dot ⟨0, 1, 0⟩ = 0 ∧
        projectOntoTangentPlane (projectOntoTangentPlane ⟨1, 2, 3⟩ ⟨0, 1, 0⟩) ⟨0, 1, 0⟩ =
          projectOntoTangentPlane ⟨1, 2, 3⟩ ⟨0, 1, 0⟩) :=
  ⟨by norm_num [Vec3.lengthSq],
    c10_tangent_projection_orthogonal_idempotent ⟨1, 2, 3⟩ ⟨0, 1, 0⟩
      (by norm_num [Vec3.lengthSq])⟩

/-- C8 counterexample: the very first position write after construction with
the smoothed mode requested does not move the camera to the target — it
lerps, because `setupCamera` (run by the constructor) already marked the
position initialized. -/
theorem c8_counterexample_first_smoothed_write_lerps :
    (setPosition mkCameraController ⟨10, 0, 0⟩ true).cameraPos ≠ (⟨10, 0, 0⟩ : Vec3) := by
  have : (setPosition mkCameraController ⟨10, 0, 0⟩ true).cameraPos = ⟨3/10, 194/125, 0⟩ := by
    norm_num [setPosition, mkCameraController, setupCamera, cameraCtorInit, lerpV,
      positionSmoothingFactor, PLAYER_EYE_HEIGHT, Vec3.scale, Vec3.zero]
  rw [this]
  intro h
  have := congrArg Vec3.x h
  norm_num at this

/-- C8 (amended): construction itself performs the initializing snap
(`setupCamera` marks the position initialized), so a first write after
construction snaps exactly to the target precisely when smoothing is not
requested; with smoothing requested it lerps toward the target with factor
`0.03` like every later smoothed write. -/
theorem c8_first_write_snaps_only_without_smoothing (p : Vec3) :
    (setPosition mkCameraController p false).cameraPos = p ∧
      (setPosition mkCameraController p true).cameraPos =
        lerpV (⟨0, PLAYER_EYE_HEIGHT, 0⟩ : Vec3) p positionSmoothingFactor ∧
      mkCameraController.positionInitialized = true := by
  refine ⟨?_, ?_, rfl⟩
  · simp [setPosition, mkCameraController, setupCamera, cameraCtorInit]
  · simp [setPosition, mkCameraController, setupCamera, cameraCtorInit]

/-- C8 witness at the target `(4,5,6)`. -/
theorem c8_witness :
    (setPosition mkCameraController ⟨4, 5, 6⟩ false).cameraPos = ⟨4, 5, 6⟩ ∧
      (setPosition mkCameraController ⟨4, 5, 6⟩ true).cameraPos =
        lerpV (⟨0, PLAYER_EYE_HEIGHT, 0⟩ : Vec3) ⟨4, 5, 6⟩ positionSmoothingFactor ∧
      mkCameraController.positionInitialized = true :=
  c8_first_write_snaps_only_without_smoothing ⟨4, 5, 6⟩

theorem slideAux_depth_le (s : ℚ → ℚ) (env : Env) (dt : ℚ) :
    ∀ (fuel : ℕ) (position velocity : Vec3),
      (slideAux s env dt fuel position velocity).2.depth ≤ fuel := by
  intro fuel
  induction fuel with
  | zero => intro position velocity; simp [slideAux]
  | succ n ih =>
    intro position velocity
    simp only [slideAux]
    split
    · simp
    · split
      · simp
      · simpa using Nat.succ_le_succ (ih _ _)

/-- C1: the recursive slide consumes at most the fixed maximum of 3 recursion
steps for every input, and a velocity of (squared) magnitude below the small
epsilon returns the input position immediately, consuming no recursion step
and performing no object or room collision query. -/
theorem c1_slide_terminates_within_depth (s : ℚ → ℚ) (env : Env)
    (position velocity : Vec3) (dt : ℚ) :
    (slideAux s env dt 3 position velocity).2.depth ≤ 3 ∧
      (velocity.lengthSq < 1/10000 →
        slideAux s env dt 3 position velocity = (position, ⟨0, 0, 0⟩)) := by
  refine ⟨slideAux_depth_le s env dt 3 position velocity, fun h => ?_⟩
  show slideAux s env dt (2 + 1) position velocity = (position, ⟨0, 0, 0⟩)
  simp only [slideAux]
  rw [if_pos h]

/-- C1 witness: zero velocity in the empty environment. -/
theorem c1_witness :
    (Vec3.lengthSq Vec3.zero < 1/10000) ∧
      slideAux sZero envEmpty 1 3 ⟨1, 2, 3⟩ Vec3.zero = (⟨1, 2, 3⟩, ⟨0, 0, 0⟩) :=
  ⟨by norm_num [Vec3.lengthSq, Vec3.zero],
    (c1_slide_terminates_within_depth sZero envEmpty ⟨1, 2, 3⟩ Vec3.zero 1).2
      (by norm_num [Vec3.lengthSq, Vec3.zero])⟩

theorem satScan_of_sep (s : ℚ → ℚ) (o1 o2 : LOBB) :
    ∀ (l : List Vec3) (acc : Option (ℚ × Vec3)),
      (∃ a ∈ l, sepOn s o1 o2 a) → satScan s o1 o2 l acc = none := by
  intro l
  induction l with
  | nil => rintro acc ⟨a, ha, _⟩; simp at ha
  | cons b t ih =>
    rintro acc ⟨a, ha, hsep⟩
    by_cases hb : sepOn s o1 o2 b
    · simp [satScan, hb]
    · have hat : a ∈ t := by
        rcases List.mem_cons.mp ha with h | h
        · exact absurd (h ▸ hsep) hb
        · exact h
      simp only [satScan, if_neg hb]
      exact ih _ ⟨a, hat, hsep⟩

/-- C2: if the projected intervals of two OBBs (with normalized axes) are
fully separated on at least one of the candidate SAT axes, `testOBBvsOBB`
reports no collision. -/
theorem c2_sat_separation_no_collision (s : ℚ → ℚ) (o1 o2 : LOBB)
    (h1 : axesUnit o1) (h2 : axesUnit o2)
    (hsep : ∃ a ∈ satAxes s o1 o2, sepOn s o1 o2 a) :
    (testOBBvsOBB s o1 o2).colliding = false := by
  unfold testOBBvsOBB
  rw [satScan_of_sep s o1 o2 _ none hsep]

/-- C2 witness: two unit cubes three units apart are separated on the first
candidate axis, and `testOBBvsOBB` reports no collision. -/
theorem c2_witness :
    axesUnit cubeAtOrigin ∧ axesUnit cubeFarX ∧
      (∃ a ∈ satAxes sUnit cubeAtOrigin cubeFarX, sepOn sUnit cubeAtOrigin cubeFarX a) ∧
      (testOBBvsOBB sUnit cubeAtOrigin cubeFarX).colliding = false := by
  have h1 : axesUnit cubeAtOrigin := by
    norm_num [axesUnit, cubeAtOrigin, Vec3.lengthSq]
  have h2 : axesUnit cubeFarX := by
    norm_num [axesUnit, cubeFarX, Vec3.lengthSq]
  have hmem : (⟨1, 0, 0⟩ : Vec3) ∈ satAxes sUnit cubeAtOrigin cubeFarX := by
    simp [satAxes, cubeAtOrigin, cubeFarX]
  have hsep : sepOn sUnit cubeAtOrigin cubeFarX ⟨1, 0, 0⟩ := by
    norm_num [sepOn, projectOntoAxis, projRadius, normalizeQ, sUnit, cubeAtOrigin,
      cubeFarX, Vec3.lengthSq, Vec3.dot, Vec3.scale, Vec3.zero]
  exact ⟨h1, h2, ⟨⟨1, 0, 0⟩, hmem, hsep⟩,
    c2_sat_separation_no_collision sUnit cubeAtOrigin cubeFarX h1 h2
      ⟨⟨1, 0, 0⟩, hmem, hsep⟩⟩

theorem projectOntoAxis_fst (s : ℚ → ℚ) (o : LOBB) (a : Vec3) :
    (projectOntoAxis s o a).1 = o.center.dot (normalizeQ s a) - projRadius s o a := rfl

theorem projectOntoAxis_snd (s : ℚ → ℚ) (o : LOBB) (a : Vec3) :
    (projectOntoAxis s o a).2 = o.center.dot (normalizeQ s a) + projRadius s o a := rfl

theorem projRadius_nonneg (s : ℚ → ℚ) (o : LOBB) (a : Vec3) (h : heNonneg o) :
    0 ≤ projRadius s o a := by
  obtain ⟨hx, hy, hz⟩ := h
  unfold projRadius
  have t0 := mul_nonneg hx (abs_nonneg (o.ax0.dot (normalizeQ s a)))
  have t1 := mul_nonneg hy (abs_nonneg (o.ax1.dot (normalizeQ s a)))
  have t2 := mul_nonneg hz (abs_nonneg (o.ax2.dot (normalizeQ s a)))
  linarith

theorem noSep_of_eq_center (s : ℚ → ℚ) (o1 o2 : LOBB) (hc : o1.center = o2.center)
    (h1 : heNonneg o1) (h2 : heNonneg o2) : ∀ a, ¬ sepOn s o1 o2 a := by
  intro a hsep
  have r1 := projRadius_nonneg s o1 a h1
  have r2 := projRadius_nonneg s o2 a h2
  rcases hsep with h | h
  · rw [projectOntoAxis_snd, projectOntoAxis_fst, hc] at h; linarith
  · rw [projectOntoAxis_snd, projectOntoAxis_fst, hc] at h; linarith

theorem overlapOn_eq_center (s : ℚ → ℚ) (o1 o2 : LOBB) (a : Vec3)
    (hc : o1.center = o2.center) :
    overlapOn s o1 o2 a = projRadius s o1 a + projRadius s o2 a := by
  unfold overlapOn
  rw [projectOntoAxis_snd, projectOntoAxis_fst, projectOntoAxis_snd,
    projectOntoAxis_fst, hc]
  have e1 : o2.center.dot (normalizeQ s a) + projRadius s o1 a -
      (o2.center.dot (normalizeQ s a) - projRadius s o2 a) =
      projRadius s o1 a + projRadius s o2 a := by ring
  have e2 : o2.center.dot (normalizeQ s a) + projRadius s o2 a -
      (o2.center.dot (normalizeQ s a) - projRadius s o1 a) =
      projRadius s o1 a + projRadius s o2 a := by ring
  rw [e1, e2, min_self]

theorem satScan_no_sep (s : ℚ → ℚ) (o1 o2 : LOBB)
    (hns : ∀ a, ¬ sepOn s o1 o2 a) :
    ∀ (l : List Vec3) (acc : Option (ℚ × Vec3)),
      satScan s o1 o2 l acc = some (l.foldl (satStep s o1 o2) acc) := by
  intro l
  induction l with
  | nil => intro acc; rfl
  | cons a t ih =>
    intro acc
    simp only [satScan, List.foldl_cons, if_neg (hns a)]
    exact ih _

theorem foldl_satStep_spec (s : ℚ → ℚ) (o1 o2 : LOBB) :
    ∀ (l : List Vec3) (m : ℚ) (ax : Vec3),
      ∃ m' ax', l.foldl (satStep s o1 o2) (some (m, ax)) = some (m', ax') ∧
        m' ≤ m ∧ ((m' = m ∧ ax' = ax) ∨ (ax' ∈ l ∧ m' = overlapOn s o1 o2 ax')) ∧
        ∀ b ∈ l, m' ≤ overlapOn s o1 o2 b := by
  intro l
  induction l with
  | nil =>
    intro m ax
    exact ⟨m, ax, rfl, le_refl m, Or.inl ⟨rfl, rfl⟩, by simp⟩
  | cons a t ih =>
    intro m ax
    by_cases hlt : overlapOn s o1 o2 a < m
    · have hstep : satStep s o1 o2 (some (m, ax)) a = some (overlapOn s o1 o2 a, a) := by
        simp [satStep, hlt]
      obtain ⟨m', ax', heq, hle, hcase, hall⟩ := ih (overlapOn s o1 o2 a) a
      refine ⟨m', ax', ?_, hle.trans hlt.le, ?_, ?_⟩
      · rw [List.foldl_cons, hstep]; exact heq
      · rcases hcase with ⟨hm, hax⟩ | ⟨hmem, hov⟩
        · exact Or.inr ⟨by rw [hax]; exact List.mem_cons_self a t, by rw [hm, hax]⟩
        · exact Or.inr ⟨List.mem_cons_of_mem a hmem, hov⟩
      · intro b hb
        rcases List.mem_cons.mp hb with rfl | hbt
        · exact hle
        · exact hall b hbt
    · have hstep : satStep s o1 o2 (some (m, ax)) a = some (m, ax) := by
        simp [satStep, hlt]
      obtain ⟨m', ax', heq, hle, hcase, hall⟩ := ih m ax
      refine ⟨m', ax', ?_, hle, ?_, ?_⟩
      · rw [List.foldl_cons, hstep]; exact heq
      · rcases hcase with ⟨hm, hax⟩ | ⟨hmem, hov⟩
        · exact Or.inl ⟨hm, hax⟩
        · exact Or.inr ⟨List.mem_cons_of_mem a hmem, hov⟩
      · intro b hb
        rcases List.mem_cons.mp hb with rfl | hbt
        · exact hle.trans (not_lt.mp hlt)
        · exact hall b hbt

/-- C6: for two OBBs with identical centers (non-negative half extents,
candidate axes of unit length), `testOBBvsOBB` reports a collision whose
penetration depth is the minimum over the candidate axes of the summed
projected radii, and whose normal is one of the candidate axes — a unit
vector, not negated (the center-difference tie-break keeps the stored axis
direction). -/
theorem c6_identical_centers_penetration (s : ℚ → ℚ) (o1 o2 : LOBB)
    (hc : o1.center = o2.center) (h1 : heNonneg o1) (h2 : heNonneg o2)
    (hunit : ∀ a ∈ satAxes s o1 o2, a.lengthSq = 1) :
    (testOBBvsOBB s o1 o2).colliding = true ∧
      ∃ ax ∈ satAxes s o1 o2,
        ax.lengthSq = 1 ∧
        (testOBBvsOBB s o1 o2).penetrationDepth =
          some (projRadius s o1 ax + projRadius s o2 ax) ∧
        (∀ b ∈ satAxes s o1 o2,
          projRadius s o1 ax + projRadius s o2 ax ≤
            projRadius s o1 b + projRadius s o2 b) ∧
        (testOBBvsOBB s o1 o2).normal = some ax := by
  have hns := noSep_of_eq_center s o1 o2 hc h1 h2
  have hex : ∃ a0 rest, satAxes s o1 o2 = a0 :: rest := by
    cases hE : satAxes s o1 o2 with
    | nil => exact absurd hE (by simp [satAxes])
    | cons a0 rest => exact ⟨a0, rest, rfl⟩
  obtain ⟨a0, rest, hE⟩ := hex
  · have hfold0 : List.foldl (satStep s o1 o2) none (a0 :: rest) =
        List.foldl (satStep s o1 o2) (some (overlapOn s o1 o2 a0, a0)) rest := by
      rw [List.foldl_cons]; rfl
    obtain ⟨m', ax', heq, hle, hcase, hall⟩ :=
      foldl_satStep_spec s o1 o2 rest (overlapOn s o1 o2 a0) a0
    have hscan : satScan s o1 o2 (satAxes s o1 o2) none = some (some (m', ax')) := by
      rw [satScan_no_sep s o1 o2 hns _ none, hE, hfold0, heq]
    have hmem : ax' ∈ satAxes s o1 o2 := by
      rw [hE]
      rcases hcase with ⟨_, hax⟩ | ⟨hmemt, _⟩
      · rw [hax]; exact List.mem_cons_self a0 rest
      · exact List.mem_cons_of_mem a0 hmemt
    have hval : m' = overlapOn s o1 o2 ax' := by
      rcases hcase with ⟨hm, hax⟩ | ⟨_, hov⟩
      · rw [hm, hax]
      · exact hov
    have hmin : ∀ b ∈ satAxes s o1 o2, m' ≤ overlapOn s o1 o2 b := by
      rw [hE]
      intro b hb
      rcases List.mem_cons.mp hb with rfl | hbt
      · exact hle
      · exact hall b hbt
    have hT : testOBBvsOBB s o1 o2 =
        ⟨true, some m', some (if (o2.center - o1.center).dot ax' < 0 then -ax' else ax')⟩ := by
      unfold testOBBvsOBB
      rw [hscan]
    have hdiff : o2.center - o1.center = (⟨0, 0, 0⟩ : Vec3) := by
      rw [← hc, Vec3.sub_def]
      simp
    have hnormal : (if (o2.center - o1.center).dot ax' < 0 then -ax' else ax') = ax' := by
      rw [hdiff]
      have hdot : (Vec3.mk 0 0 0).dot ax' = 0 := by simp [Vec3.dot]
      rw [hdot, if_neg (lt_irrefl 0)]
    refine ⟨by rw [hT], ax', hmem, hunit ax' hmem, ?_, ?_, ?_⟩
    · rw [hT]
      show some m' = some (projRadius s o1 ax' + projRadius s o2 ax')
      rw [hval, overlapOn_eq_center s o1 o2 ax' hc]
    · intro b hb
      have h := hmin b hb
      rw [hval, overlapOn_eq_center s o1 o2 ax' hc, overlapOn_eq_center s o1 o2 b hc] at h
      exact h
    · rw [hT]
      show some (if (o2.center - o1.center).dot ax' < 0 then -ax' else ax') = some ax'
      rw [hnormal]

/-- C6 witness: two axis-aligned boxes sharing center `(1,2,3)`. -/
theorem c6_witness :
    boxA.center = boxB.center ∧ heNonneg boxA ∧ heNonneg boxB ∧
      (∀ a ∈ satAxes sUnit boxA boxB, a.lengthSq = 1) ∧
      ((testOBBvsOBB sUnit boxA boxB).colliding = true ∧
        ∃ ax ∈ satAxes sUnit boxA boxB,
          ax.lengthSq = 1 ∧
          (testOBBvsOBB sUnit boxA boxB).penetrationDepth =
            some (projRadius sUnit boxA ax + projRadius sUnit boxB ax) ∧
          (∀ b ∈ satAxes sUnit boxA boxB,
            projRadius sUnit boxA ax + projRadius sUnit boxB ax ≤
              projRadius sUnit boxA b + projRadius sUnit boxB b) ∧
          (testOBBvsOBB sUnit boxA boxB).normal = some ax) := by
  have hc : boxA.center = boxB.center := rfl
  have h1 : heNonneg boxA := by norm_num [heNonneg, boxA]
  have h2 : heNonneg boxB := by norm_num [heNonneg, boxB]
  have hunit : ∀ a ∈ satAxes sUnit boxA boxB, a.lengthSq = 1 := by
    norm_num [satAxes, boxA, boxB, Vec3.cross, Vec3.lengthSq, normalizeQ, sUnit,
      Vec3.scale, List.filter]
  exact ⟨hc, h1, h2, hunit,
    c6_identical_centers_penetration sUnit boxA boxB hc h1 h2 hunit⟩

theorem findContinue_thin (origMesh : RoomMesh) (maxDistance : ℚ) :
    ∀ (l : List RayHit) (ch : RayHit),
      findContinue origMesh maxDistance l = some ch →
        getObjectHeight ch.mesh ≤ maxGroundThickness := by
  intro l
  induction l with
  | nil => intro ch h; simp [findContinue] at h
  | cons a t ih =>
    intro ch h
    by_cases hcond : a.mesh.id ≠ origMesh.id ∧ a.dist ≤ maxDistance ∧
        getObjectHeight a.mesh ≤ maxGroundThickness
    · rw [findContinue, if_pos hcond] at h
      cases h
      exact hcond.2.2
    · rw [findContinue, if_neg hcond] at h
      exact ih ch h

theorem findGroundLoop_thin (env : Env) (maxDistance : ℚ) :
    ∀ (l : List RayHit) (h : RayHit),
      findGroundLoop env maxDistance l = some h →
        getObjectHeight h.mesh ≤ maxGroundThickness := by
  intro l
  induction l with
  | nil => intro h hh; simp [findGroundLoop] at hh
  | cons a t ih =>
    intro h hh
    rw [findGroundLoop] at hh
    by_cases hfar : maxDistance < a.dist
    · rw [if_pos hfar] at hh; exact ih h hh
    · rw [if_neg hfar] at hh
      by_cases hthin : getObjectHeight a.mesh ≤ maxGroundThickness
      · rw [if_pos hthin] at hh; cases hh; exact hthin
      · rw [if_neg hthin] at hh
        cases hg : a.mesh.geom with
        | none => rw [hg] at hh; exact ih h hh
        | some b =>
          rw [hg] at hh
          simp only at hh
          cases hfc : findContinue a.mesh maxDistance
              (raycastAll env (a.mesh.pos + ⟨0, b.min.y, 0⟩) downDir) with
          | none => rw [hfc] at hh; exact ih h hh
          | some ch =>
            rw [hfc] at hh
            cases hh
            exact findContinue_thin a.mesh maxDistance _ ch hfc

theorem findGround_envTable_eval :
    findGround envTable ⟨0, 5, 0⟩ 10 = some ⟨22/5, ⟨0, 0, 0⟩, ⟨0, 1, 0⟩, floorMesh⟩ := by
  have hray : raycastAll envTable ⟨0, 5, 0⟩ downDir =
      [⟨4, ⟨0, 1, 0⟩, ⟨0, 1, 0⟩, tableMesh⟩, ⟨5, ⟨0, 0, 0⟩, ⟨0, 1, 0⟩, floorMesh⟩] := by
    norm_num [raycastAll, allHits, meshHits, intersectRayBox, slab, slabEntry, slabExit,
      pickLater, pickMin, envTable, tableMesh, floorMesh, downDir, Vec3.scale, Vec3.zero,
      sortHits, insertHit]
  have hray2 : raycastAll envTable ⟨0, 2/5, 0⟩ downDir =
      [⟨2/5, ⟨0, 0, 0⟩, ⟨0, 1, 0⟩, floorMesh⟩] := by
    norm_num [raycastAll, allHits, meshHits, intersectRayBox, slab, slabEntry, slabExit,
      pickLater, pickMin, envTable, tableMesh, floorMesh, downDir, Vec3.scale, Vec3.zero,
      sortHits, insertHit]
  rw [findGround, hray]
  norm_num [findGroundLoop, findContinue, getObjectHeight, maxGroundThickness,
    PLAYER_HEIGHT, tableMesh, floorMesh, Vec3.zero, hray2]

theorem findGround_envStacked_eval :
    findGround envStacked ⟨0, 5, 0⟩ 10 = some ⟨22/5, ⟨0, 0, 0⟩, ⟨0, 1, 0⟩, floorMesh⟩ := by
  have hray : raycastAll envStacked ⟨0, 5, 0⟩ downDir =
      [⟨4, ⟨0, 1, 0⟩, ⟨0, 1, 0⟩, tableMesh⟩, ⟨93/20, ⟨0, 7/20, 0⟩, ⟨0, 1, 0⟩, crateMesh⟩,
        ⟨5, ⟨0, 0, 0⟩, ⟨0, 1, 0⟩, floorMesh⟩] := by
    norm_num [raycastAll, allHits, meshHits, intersectRayBox, slab, slabEntry, slabExit,
      pickLater, pickMin, envStacked, tableMesh, crateMesh, floorMesh, downDir,
      Vec3.scale, Vec3.zero, sortHits, insertHit]
  have hray2 : raycastAll envStacked ⟨0, 2/5, 0⟩ downDir =
      [⟨1/20, ⟨0, 7/20, 0⟩, ⟨0, 1, 0⟩, crateMesh⟩,
        ⟨2/5, ⟨0, 0, 0⟩, ⟨0, 1, 0⟩, floorMesh⟩] := by
    norm_num [raycastAll, allHits, meshHits, intersectRayBox, slab, slabEntry, slabExit,
      pickLater, pickMin, envStacked, tableMesh, crateMesh, floorMesh, downDir,
      Vec3.scale, Vec3.zero, sortHits, insertHit]
  rw [findGround, hray]
  norm_num [findGroundLoop, findContinue, getObjectHeight, maxGroundThickness,
    PLAYER_HEIGHT, tableMesh, crateMesh, floorMesh, Vec3.zero, hray2]

theorem findGround_envThickOnly_eval :
    findGround envThickOnly ⟨0, 5, 0⟩ 10 = none := by
  have hray : raycastAll envThickOnly ⟨0, 5, 0⟩ downDir =
      [⟨4, ⟨0, 1, 0⟩, ⟨0, 1, 0⟩, tableMesh⟩] := by
    norm_num [raycastAll, allHits, meshHits, intersectRayBox, slab, slabEntry, slabExit,
      pickLater, pickMin, envThickOnly, tableMesh, downDir, Vec3.scale, Vec3.zero,
      sortHits, insertHit]
  have hray2 : raycastAll envThickOnly ⟨0, 2/5, 0⟩ downDir = [] := by
    norm_num [raycastAll, allHits, meshHits, intersectRayBox, slab, slabEntry, slabExit,
      pickLater, pickMin, envThickOnly, tableMesh, downDir, Vec3.scale, Vec3.zero,
      sortHits, insertHit]
  rw [findGround, hray]
  norm_num [findGroundLoop, findContinue, getObjectHeight, maxGroundThickness,
    PLAYER_HEIGHT, tableMesh, Vec3.zero, hray2]

/-- C3: a downward ground probe accepts a hit as ground only when the struck
mesh's vertical extent is at most 10% of the player height; a thick first hit
re-casts from the bottom face of the struck object.  The three closed
conjuncts evaluate the probe on concrete worlds: thick table over thin floor
(the claim's scenario, ground point at the floor, `y = 0`), two stacked thick
objects over the floor (still the floor), and a thick object with nothing
below (no ground). -/
theorem c3_ground_probe_thin_only (env : Env) (position : Vec3) (maxDistance : ℚ)
    (h : RayHit) (hfg : findGround env position maxDistance = some h) :
    getObjectHeight h.mesh ≤ PLAYER_HEIGHT * (1/10) ∧
      findGround envTable ⟨0, 5, 0⟩ 10 = some ⟨22/5, ⟨0, 0, 0⟩, ⟨0, 1, 0⟩, floorMesh⟩ ∧
      findGround envStacked ⟨0, 5, 0⟩ 10 = some ⟨22/5, ⟨0, 0, 0⟩, ⟨0, 1, 0⟩, floorMesh⟩ ∧
      findGround envThickOnly ⟨0, 5, 0⟩ 10 = none :=
  ⟨findGroundLoop_thin env maxDistance _ h hfg, findGround_envTable_eval,
    findGround_envStacked_eval, findGround_envThickOnly_eval⟩

/-- C3 witness: the probe over the table world returns the floor, whose
vertical extent (`0.05`) is under the 10% threshold. -/
theorem c3_witness :
    findGround envTable ⟨0, 5, 0⟩ 10 = some ⟨22/5, ⟨0, 0, 0⟩, ⟨0, 1, 0⟩, floorMesh⟩ ∧
      getObjectHeight floorMesh ≤ PLAYER_HEIGHT * (1/10) :=
  ⟨findGround_envTable_eval,
    (c3_ground_probe_thin_only envTable ⟨0, 5, 0⟩ 10 _ findGround_envTable_eval).1⟩

theorem mem_insertHit (x h : RayHit) :
    ∀ l, x ∈ insertHit h l → x = h ∨ x ∈ l := by
  intro l
  induction l with
  | nil => intro hx; simpa [insertHit] using hx
  | cons a t ih =>
    intro hx
    rw [insertHit] at hx
    by_cases hc : h.dist < a.dist
    · rw [if_pos hc] at hx
      rcases List.mem_cons.mp hx with rfl | hx'
      · exact Or.inl rfl
      · exact Or.inr hx'
    · rw [if_neg hc] at hx
      rcases List.mem_cons.mp hx with rfl | hx'
      · exact Or.inr (List.mem_cons_self _ _)
      · rcases ih hx' with h1 | h1
        · exact Or.inl h1
        · exact Or.inr (List.mem_cons_of_mem _ h1)

theorem mem_sortHits (x : RayHit) : ∀ l, x ∈ sortHits l → x ∈ l := by
  intro l
  induction l with
  | nil => intro hx; simpa [sortHits] using hx
  | cons a t ih =>
    intro hx
    rw [sortHits] at hx
    rcases mem_insertHit x a _ hx with rfl | hx'
    · exact List.mem_cons_self _ _
    · exact List.mem_cons_of_mem _ (ih hx')

theorem mem_allHits_geom (o d : Vec3) (hit : RayHit) :
    ∀ rooms, hit ∈ allHits rooms o d → hit.mesh.geom.isSome = true := by
  intro rooms
  induction rooms with
  | nil => intro hx; simp [allHits] at hx
  | cons m t ih =>
    intro hx
    rcases List.mem_append.mp hx with hx' | hx'
    · cases hg : m.geom with
      | none => simp only [meshHits, hg] at hx'; simp at hx'
      | some b =>
        simp only [meshHits, hg] at hx'
        cases hrb : intersectRayBox o d ⟨b.min + m.pos, b.max + m.pos⟩ with
        | none => rw [hrb] at hx'; simp at hx'
        | some tn =>
          rw [hrb] at hx'
          rcases tn with ⟨t', n⟩
          simp only [List.mem_singleton] at hx'
          rw [hx']
          simp [hg]
    · exact ih hx'

theorem mem_raycastAll_geom (env : Env) (o d : Vec3) (hit : RayHit)
    (hx : hit ∈ raycastAll env o d) : hit.mesh.geom.isSome = true :=
  mem_allHits_geom o d hit env.rooms (mem_sortHits hit _ hx)

theorem findContinue_mem (origMesh : RoomMesh) (maxDistance : ℚ) :
    ∀ (l : List RayHit) (ch : RayHit),
      findContinue origMesh maxDistance l = some ch → ch ∈ l := by
  intro l
  induction l with
  | nil => intro ch h; simp [findContinue] at h
  | cons a t ih =>
    intro ch h
    rw [findContinue] at h
    by_cases hcond : a.mesh.id ≠ origMesh.id ∧ a.dist ≤ maxDistance ∧
        getObjectHeight a.mesh ≤ maxGroundThickness
    · rw [if_pos hcond] at h
      cases h
      exact List.mem_cons_self _ _
    · rw [if_neg hcond] at h
      exact List.mem_cons_of_mem _ (ih ch h)

theorem findGroundLoop_geom (env : Env) (maxDistance : ℚ) :
    ∀ (l : List RayHit) (h : RayHit),
      (∀ x ∈ l, x.mesh.geom.isSome = true) →
      findGroundLoop env maxDistance l = some h → h.mesh.geom.isSome = true := by
  intro l
  induction l with
  | nil => intro h _ hh; simp [findGroundLoop] at hh
  | cons a t ih =>
    intro h hinv hh
    have hinvt : ∀ x ∈ t, x.mesh.geom.isSome = true :=
      fun x hx => hinv x (List.mem_cons_of_mem _ hx)
    rw [findGroundLoop] at hh
    by_cases hfar : maxDistance < a.dist
    · rw [if_pos hfar] at hh; exact ih h hinvt hh
    · rw [if_neg hfar] at hh
      by_cases hthin : getObjectHeight a.mesh ≤ maxGroundThickness
      · rw [if_pos hthin] at hh
        cases hh
        exact hinv a (List.mem_cons_self _ _)
      · rw [if_neg hthin] at hh
        cases hg : a.mesh.geom with
        | none => rw [hg] at hh; exact ih h hinvt hh
        | some b =>
          rw [hg] at hh
          simp only at hh
          cases hfc : findContinue a.mesh maxDistance
              (raycastAll env (a.mesh.pos + ⟨0, b.min.y, 0⟩) downDir) with
          | none => rw [hfc] at hh; exact ih h hinvt hh
          | some ch =>
            rw [hfc] at hh
            cases hh
            exact mem_raycastAll_geom env _ downDir ch
              (findContinue_mem a.mesh maxDistance _ ch hfc)

theorem allHits_filter_geom (o d : Vec3) :
    ∀ rooms : List RoomMesh,
      allHits (rooms.filter (fun m => m.geom.isSome)) o d = allHits rooms o d := by
  intro rooms
  induction rooms with
  | nil => rfl
  | cons m t ih =>
    cases hg : m.geom with
    | none =>
      have hf : (m :: t).filter (fun m => m.geom.isSome) =
          t.filter (fun m => m.geom.isSome) := by
        simp [List.filter, hg]
      rw [hf, ih]
      show allHits t o d = meshHits o d m ++ allHits t o d
      rw [meshHits, hg]
      rfl
    | some b =>
      have hf : (m :: t).filter (fun m => m.geom.isSome) =
          m :: t.filter (fun m => m.geom.isSome) := by
        simp [List.filter, hg]
      rw [hf]
      show meshHits o d m ++ allHits (t.filter (fun m => m.geom.isSome)) o d =
        meshHits o d m ++ allHits t o d
      rw [ih]

theorem raycastAll_filter_geom (env : Env) (o d : Vec3) :
    raycastAll ⟨env.rooms.filter (fun m => m.geom.isSome), env.objects, env.dirs⟩ o d =
      raycastAll env o d := by
  unfold raycastAll
  rw [show (Env.mk (env.rooms.filter (fun m => m.geom.isSome)) env.objects env.dirs).rooms =
    env.rooms.filter (fun m => m.geom.isSome) from rfl, allHits_filter_geom]

theorem findGroundLoop_congr (env1 env2 : Env) (maxDistance : ℚ)
    (hr : ∀ o d, raycastAll env1 o d = raycastAll env2 o d) :
    ∀ l, findGroundLoop env1 maxDistance l = findGroundLoop env2 maxDistance l := by
  intro l
  induction l with
  | nil => rfl
  | cons a t ih =>
    rw [findGroundLoop, findGroundLoop]
    by_cases hfar : maxDistance < a.dist
    · rw [if_pos hfar, if_pos hfar, ih]
    · rw [if_neg hfar, if_neg hfar]
      by_cases hthin : getObjectHeight a.mesh ≤ maxGroundThickness
      · rw [if_pos hthin, if_pos hthin]
      · rw [if_neg hthin, if_neg hthin]
        cases hg : a.mesh.geom with
        | none => exact ih
        | some b =>
          simp only [hr]
          cases findContinue a.mesh maxDistance
              (raycastAll env2 (a.mesh.pos + ⟨0, b.min.y, 0⟩) downDir) with
          | none => exact ih
          | some ch => rfl

/-- C7: a mesh without computable bounding-box data contributes nothing to
ground and height calculations — the ground probe never reports such a mesh,
removing all such meshes from the registry does not change any probe result,
and the height helper returns `0` for them instead of failing. -/
theorem c7_boxless_mesh_is_noop (env : Env) (position : Vec3) (maxDistance : ℚ) :
    (∀ h, findGround env position maxDistance = some h → h.mesh.geom.isSome = true) ∧
      findGround ⟨env.rooms.filter (fun m => m.geom.isSome), env.objects, env.dirs⟩
          position maxDistance = findGround env position maxDistance ∧
      (∀ m : RoomMesh, m.geom = none → getObjectHeight m = 0) := by
  refine ⟨?_, ?_, ?_⟩
  · intro h hfg
    exact findGroundLoop_geom env maxDistance _ h
      (fun x hx => mem_raycastAll_geom env position downDir x hx) hfg
  · unfold findGround
    rw [raycastAll_filter_geom env position downDir]
    exact findGroundLoop_congr _ env maxDistance
      (fun o d => raycastAll_filter_geom env o d) _
  · intro m hm
    rw [getObjectHeight, hm]

theorem findGround_envBoxless_eval :
    findGround envBoxless ⟨0, 5, 0⟩ 10 = some ⟨5, ⟨0, 0, 0⟩, ⟨0, 1, 0⟩, floorMesh⟩ := by
  have hray : raycastAll envBoxless ⟨0, 5, 0⟩ downDir =
      [⟨5, ⟨0, 0, 0⟩, ⟨0, 1, 0⟩, floorMesh⟩] := by
    norm_num [raycastAll, allHits, meshHits, intersectRayBox, slab, slabEntry, slabExit,
      pickLater, pickMin, envBoxless, boxlessMesh, floorMesh, downDir, Vec3.scale,
      Vec3.zero, sortHits, insertHit]
  rw [findGround, hray]
  norm_num [findGroundLoop, getObjectHeight, maxGroundThickness, PLAYER_HEIGHT, floorMesh]

/-- C7 witness: a world holding a boxless mesh and the floor — the probe
reports the floor (a mesh with a box), filtering the boxless mesh away
changes nothing, and the boxless mesh's height is `0`. -/
theorem c7_witness :
    findGround envBoxless ⟨0, 5, 0⟩ 10 = some ⟨5, ⟨0, 0, 0⟩, ⟨0, 1, 0⟩, floorMesh⟩ ∧
      (⟨5, ⟨0, 0, 0⟩, ⟨0, 1, 0⟩, floorMesh⟩ : RayHit).mesh.geom.isSome = true ∧
      findGround ⟨envBoxless.rooms.filter (fun m => m.geom.isSome), envBoxless.objects,
          envBoxless.dirs⟩ ⟨0, 5, 0⟩ 10 = findGround envBoxless ⟨0, 5, 0⟩ 10 ∧
      boxlessMesh.geom = none ∧ getObjectHeight boxlessMesh = 0 :=
  ⟨findGround_envBoxless_eval,
    (c7_boxless_mesh_is_noop envBoxless ⟨0, 5, 0⟩ 10).1 _ findGround_envBoxless_eval,
    (c7_boxless_mesh_is_noop envBoxless ⟨0, 5, 0⟩ 10).2.1,
    rfl,
    (c7_boxless_mesh_is_noop envBoxless ⟨0, 5, 0⟩ 10).2.2 boxlessMesh rfl⟩

/-- C4: whenever the position a frame computes (before the safety net) has
height below the global floor `-10`, the frame's final result restores the
recorded safe position exactly (or clamps the height to `-10` when none is
recorded), zeroes both velocities, and clears the grounded and jump-armed
flags. -/
theorem c4_fall_through_safety_net (s : ℚ → ℚ) (env : Env) (inp : Input)
    (direction right : Vec3) (dt : ℚ) (st : PState) (safe : Vec3)
    (hbelow : (updateCore s env inp direction right dt st).position.y < MIN_FALL_Y) :
    (update s env inp direction right dt st).velocity = Vec3.zero ∧
      (update s env inp direction right dt st).pushbackVelocity = Vec3.zero ∧
      (update s env inp direction right dt st).isOnGround = false ∧
      (update s env inp direction right dt st).canJump = false ∧
      ((updateCore s env inp direction right dt st).lastSafePosition = some safe →
        (update s env inp direction right dt st).position = safe) ∧
      ((updateCore s env inp direction right dt st).lastSafePosition = none →
        (update s env inp direction right dt st).position =
          { (updateCore s env inp direction right dt st).position with y := MIN_FALL_Y }) := by
  unfold update
  rw [applyFallSafety, if_pos hbelow]
  refine ⟨rfl, rfl, rfl, rfl, ?_, ?_⟩
  · intro h; simp [h]
  · intro h; simp [h]

theorem updateCore_stFalling_eval :
    updateCore sZero envEmpty noInput ⟨0, 0, -1⟩ ⟨1, 0, 0⟩ 1 stFalling =
      ⟨⟨0, -2481/100, 0⟩, ⟨0, -2481/100, 0⟩, ⟨0, 0, 0⟩, false, false, false,
        some ⟨2, 8/5, 3⟩⟩ := by
  norm_num [updateCore, stageA, stageB, stageC, stageD, stageE, moveVectorOf,
    findGround, findGroundLoop, raycastAll, allHits, sortHits, checkCapsuleCollision,
    capsuleScanRows, capsuleScanDirs, verticalPositionsOf, List.range_succ,
    envEmpty, noInput, stFalling, Vec3.zero, Vec3.lengthSq, GRAVITY, PLAYER_RADIUS]

/-- C4 witness: height `-24.81 < -10` after the frame, recorded safe position
`(2, 1.6, 3)` — the final state is restored to it with zero velocities and
cleared flags. -/
theorem c4_witness :
    (updateCore sZero envEmpty noInput ⟨0, 0, -1⟩ ⟨1, 0, 0⟩ 1 stFalling).position.y <
        MIN_FALL_Y ∧
      (updateCore sZero envEmpty noInput ⟨0, 0, -1⟩ ⟨1, 0, 0⟩ 1 stFalling).lastSafePosition =
        some ⟨2, 8/5, 3⟩ ∧
      (update sZero envEmpty noInput ⟨0, 0, -1⟩ ⟨1, 0, 0⟩ 1 stFalling).position = ⟨2, 8/5, 3⟩ ∧
      (update sZero envEmpty noInput ⟨0, 0, -1⟩ ⟨1, 0, 0⟩ 1 stFalling).velocity = Vec3.zero ∧
      (update sZero envEmpty noInput ⟨0, 0, -1⟩ ⟨1, 0, 0⟩ 1 stFalling).pushbackVelocity =
        Vec3.zero ∧
      (update sZero envEmpty noInput ⟨0, 0, -1⟩ ⟨1, 0, 0⟩ 1 stFalling).isOnGround = false ∧
      (update sZero envEmpty noInput ⟨0, 0, -1⟩ ⟨1, 0, 0⟩ 1 stFalling).canJump = false := by
  have hbelow : (updateCore sZero envEmpty noInput ⟨0, 0, -1⟩ ⟨1, 0, 0⟩ 1
      stFalling).position.y < MIN_FALL_Y := by
    rw [updateCore_stFalling_eval]
    norm_num [MIN_FALL_Y]
  have hsafe : (updateCore sZero envEmpty noInput ⟨0, 0, -1⟩ ⟨1, 0, 0⟩ 1
      stFalling).lastSafePosition = some ⟨2, 8/5, 3⟩ := by
    rw [updateCore_stFalling_eval]
  obtain ⟨hv, hpb, hg, hcj, hsome, _⟩ :=
    c4_fall_through_safety_net sZero envEmpty noInput ⟨0, 0, -1⟩ ⟨1, 0, 0⟩ 1 stFalling
      ⟨2, 8/5, 3⟩ hbelow
  exact ⟨hbelow, hsafe, hsome hsafe, hv, hpb, hg, hcj⟩

theorem stageA_noInput (s : ℚ → ℚ) (env : Env) (direction right : Vec3) (dt : ℚ)
    (st : PState) : stageA s env noInput direction right dt st = st := by
  have hmv : moveVectorOf noInput direction right = ⟨0, 0, 0⟩ := rfl
  simp only [stageA, hmv]
  rw [if_neg (by norm_num [Vec3.lengthSq])]

theorem stageB_noJump (inp : Input) (dt : ℚ) (st : PState) (hj : inp.jump = false) :
    stageB inp dt st =
      { st with velocity := { st.velocity with y := st.velocity.y + GRAVITY * dt },
                position := { st.position with
                  y := st.position.y + (st.velocity.y + GRAVITY * dt) * dt } } := by
  simp [stageB, hj]

theorem stageC_landing (env : Env) (st : PState) (gh : RayHit)
    (hns : st.needsGroundSnap = false)
    (hfg : findGround env st.position 10 = some gh)
    (hle : st.position.y ≤ gh.point.y + PLAYER_EYE_HEIGHT) :
    stageC env st =
      { st with position := { st.position with y := gh.point.y + PLAYER_EYE_HEIGHT },
                velocity := { st.velocity with y := 0 },
                isOnGround := true, canJump := true,
                lastSafePosition :=
                  some { st.position with y := gh.point.y + PLAYER_EYE_HEIGHT } } := by
  simp only [stageC, hns, Bool.false_eq_true, if_false, hfg]
  rw [if_pos hle]

theorem stageD_noHit (s : ℚ → ℚ) (env : Env) (dt : ℚ) (st : PState)
    (hcc : checkCapsuleCollision env st.position PLAYER_RADIUS = none) :
    stageD s env dt st = st := by
  simp only [stageD, hcc]

theorem stageE_zeroPushback (dt : ℚ) (st : PState)
    (hpb : st.pushbackVelocity = Vec3.zero) : stageE dt st = st := by
  simp only [stageE, hpb]
  rw [if_neg (by norm_num [Vec3.lengthSq, Vec3.zero])]

theorem applyFallSafety_skip (st : PState) (h : MIN_FALL_Y ≤ st.position.y) :
    applyFallSafety st = st := by
  rw [applyFallSafety, if_neg (not_lt.mpr h)]

/-- C9: a frame with zero movement input and no jump, while grounded in
steady state (resting height over found ground, non-positive vertical
velocity, no pushback, no room-probe hit, above the global floor), leaves the
player's height exactly unchanged — the gravity applied within the frame is
cancelled by the ground snap and does not accumulate. -/
theorem c9_grounded_height_constant (s : ℚ → ℚ) (env : Env) (st : PState)
    (direction right : Vec3) (dt : ℚ) (gh : RayHit)
    (hg : st.isOnGround = true)
    (hns : st.needsGroundSnap = false)
    (hvy : st.velocity.y ≤ 0)
    (hdt : 0 ≤ dt)
    (hpb : st.pushbackVelocity = Vec3.zero)
    (hfloor : MIN_FALL_Y ≤ st.position.y)
    (hfg : findGround env
      { st.position with y := st.position.y + (st.velocity.y + GRAVITY * dt) * dt } 10 =
        some gh)
    (hgh : gh.point.y = st.position.y - PLAYER_EYE_HEIGHT)
    (hcc : checkCapsuleCollision env st.position PLAYER_RADIUS = none) :
    (update s env noInput direction right dt st).position.y = st.position.y ∧
      (update s env noInput direction right dt st).isOnGround = true := by
  have hty : gh.point.y + PLAYER_EYE_HEIGHT = st.position.y := by rw [hgh]; ring
  have hdrop : (st.velocity.y + GRAVITY * dt) * dt ≤ 0 := by
    have h1 : st.velocity.y + GRAVITY * dt ≤ 0 := by
      have h2 : GRAVITY * dt ≤ 0 := by
        have hG : GRAVITY ≤ 0 := by norm_num [GRAVITY]
        exact mul_nonpos_iff.mpr (Or.inr ⟨hG, hdt⟩)
      linarith
    nlinarith
  have hB := stageB_noJump noInput dt st rfl
  have hC := stageC_landing env
    { st with velocity := { st.velocity with y := st.velocity.y + GRAVITY * dt },
              position := { st.position with
                y := st.position.y + (st.velocity.y + GRAVITY * dt) * dt } }
    gh hns hfg
    (by show st.position.y + (st.velocity.y + GRAVITY * dt) * dt ≤
          gh.point.y + PLAYER_EYE_HEIGHT
        rw [hty]
        linarith)
  have hpos2 : (stageC env (stageB noInput dt st)).position = st.position := by
    rw [hB, hC]
    show ({ st.position with y := gh.point.y + PLAYER_EYE_HEIGHT } : Vec3) = st.position
    rw [hty]
  have hcc2 : checkCapsuleCollision env (stageC env (stageB noInput dt st)).position
      PLAYER_RADIUS = none := by
    rw [hpos2]; exact hcc
  have hpb2 : (stageC env (stageB noInput dt st)).pushbackVelocity = Vec3.zero := by
    rw [hB, hC]; exact hpb
  have hsafe2 : MIN_FALL_Y ≤ (stageC env (stageB noInput dt st)).position.y := by
    rw [hpos2]; exact hfloor
  have e3 := stageD_noHit s env dt (stageC env (stageB noInput dt st)) hcc2
  have e4 := stageE_zeroPushback dt (stageC env (stageB noInput dt st)) hpb2
  have e5 := applyFallSafety_skip (stageC env (stageB noInput dt st)) hsafe2
  have efinal : update s env noInput direction right dt st =
      stageC env (stageB noInput dt st) := by
    rw [update, updateCore, stageA_noInput, e3, e4, e5]
  constructor
  · rw [efinal, hpos2]
  · rw [efinal, hB, hC]

/-- C9 witness: resting at eye height over the thin floor, one frame at
`dt = 1/60` with zero input leaves the height exactly at `1.6`. -/
theorem c9_witness :
    findGround envFloor { stResting.position with
        y := stResting.position.y +
          (stResting.velocity.y + GRAVITY * (1/60)) * (1/60) } 10 =
      some ⟨63891/40000, ⟨0, 0, 0⟩, ⟨0, 1, 0⟩, floorMesh⟩ ∧
      checkCapsuleCollision envFloor stResting.position PLAYER_RADIUS = none ∧
      (update sZero envFloor noInput ⟨0, 0, -1⟩ ⟨1, 0, 0⟩ (1/60) stResting).position.y =
        stResting.position.y ∧
      (update sZero envFloor noInput ⟨0, 0, -1⟩ ⟨1, 0, 0⟩ (1/60) stResting).isOnGround =
        true := by
  have harg : ({ stResting.position with y := stResting.position.y +
      (stResting.velocity.y + GRAVITY * (1/60)) * (1/60) } : Vec3) =
      ⟨0, 63891/40000, 0⟩ := by
    norm_num [stResting, GRAVITY, Vec3.zero]
  have hray : raycastAll envFloor ⟨0, 63891/40000, 0⟩ downDir =
      [⟨63891/40000, ⟨0, 0, 0⟩, ⟨0, 1, 0⟩, floorMesh⟩] := by
    norm_num [raycastAll, allHits, meshHits, intersectRayBox, slab, slabEntry, slabExit,
      pickLater, pickMin, envFloor, floorMesh, downDir, Vec3.scale, Vec3.zero,
      sortHits, insertHit]
  have hfg : findGround envFloor { stResting.position with
      y := stResting.position.y +
        (stResting.velocity.y + GRAVITY * (1/60)) * (1/60) } 10 =
      some ⟨63891/40000, ⟨0, 0, 0⟩, ⟨0, 1, 0⟩, floorMesh⟩ := by
    rw [harg, findGround, hray]
    norm_num [findGroundLoop, getObjectHeight, maxGroundThickness, PLAYER_HEIGHT,
      floorMesh]
  have hvp : verticalPositionsOf = [6/5, 8/5] := by
    norm_num [verticalPositionsOf, List.range_succ, PLAYER_RADIUS]
  have hray1 : raycastAll ⟨[floorMesh], [], [⟨1, 0, 0⟩]⟩ ⟨0, 6/5, 0⟩ ⟨1, 0, 0⟩ = [] := by
    norm_num [raycastAll, allHits, meshHits, intersectRayBox, slab, slabEntry, slabExit,
      pickLater, pickMin, floorMesh, Vec3.scale, Vec3.zero, sortHits, insertHit]
  have hray2 : raycastAll ⟨[floorMesh], [], [⟨1, 0, 0⟩]⟩ ⟨0, 8/5, 0⟩ ⟨1, 0, 0⟩ = [] := by
    norm_num [raycastAll, allHits, meshHits, intersectRayBox, slab, slabEntry, slabExit,
      pickLater, pickMin, floorMesh, Vec3.scale, Vec3.zero, sortHits, insertHit]
  have hcc : checkCapsuleCollision envFloor stResting.position PLAYER_RADIUS = none := by
    rw [checkCapsuleCollision, hvp]
    norm_num [capsuleScanRows, capsuleScanDirs, envFloor, stResting, hray1, hray2]
  obtain ⟨h1, h2⟩ := c9_grounded_height_constant sZero envFloor stResting
    ⟨0, 0, -1⟩ ⟨1, 0, 0⟩ (1/60) ⟨63891/40000, ⟨0, 0, 0⟩, ⟨0, 1, 0⟩, floorMesh⟩
    rfl rfl (by norm_num [stResting, Vec3.zero]) (by norm_num) rfl
    (by norm_num [stResting, MIN_FALL_Y]) hfg
    (by norm_num [stResting, PLAYER_EYE_HEIGHT]) hcc
  exact ⟨hfg, hcc, h1, h2⟩

theorem slideAttemptLoop_find (env : Env) (base limited : Vec3) :
    ∀ fr : List ℚ,
      (slideAttemptLoop env base limited fr).1 =
        (fr.find? (fun f =>
          (checkObjectCollisions env
            (createPlayerOBB (base + limited.scale f))).isNone)).map
          (fun f => base + limited.scale f) := by
  intro fr
  induction fr with
  | nil => rfl
  | cons f rest ih =>
    by_cases hc :
        (checkObjectCollisions env (createPlayerOBB (base + limited.scale f))).isSome = true
    · have hpred : (checkObjectCollisions env
          (createPlayerOBB (base + limited.scale f))).isNone = false := by
        cases ho : checkObjectCollisions env (createPlayerOBB (base + limited.scale f)) with
        | none => rw [ho] at hc; simp at hc
        | some x => rfl
      rw [slideAttemptLoop, if_pos hc]
      simp only [List.find?_cons, hpred]
      exact ih
    · have hpred : (checkObjectCollisions env
          (createPlayerOBB (base + limited.scale f))).isNone = true := by
        rw [Option.not_isSome_iff_eq_none.mp hc]
        rfl
      rw [slideAttemptLoop, if_neg hc]
      simp only [List.find?_cons, hpred]
      rfl

theorem clamp_aux (t1 t2 Q V : ℚ) (ht1n : 0 ≤ t1) (ht1sq : t1 * t1 = Q)
    (ht2n : 0 ≤ t2) (ht2sq : t2 * t2 = V) (hQpos : 0 < Q) :
    min t1 (t2 * COLLISION_SPEED_FACTOR) * min t1 (t2 * COLLISION_SPEED_FACTOR) *
      (1 / t1 * (1 / t1) * Q) ≤ 4/25 * V := by
  have ht1pos : 0 < t1 := by
    rcases lt_or_eq_of_le ht1n with h | h
    · exact h
    · exfalso
      rw [← ht1sq, ← h] at hQpos
      norm_num at hQpos
  have hone : 1 / t1 * (1 / t1) * Q = 1 := by
    rw [← ht1sq]
    field_simp
  rw [hone, mul_one]
  have hm0 : 0 ≤ min t1 (t2 * COLLISION_SPEED_FACTOR) :=
    le_min ht1n (mul_nonneg ht2n (by norm_num [COLLISION_SPEED_FACTOR]))
  have hm1 : min t1 (t2 * COLLISION_SPEED_FACTOR) ≤ t2 * COLLISION_SPEED_FACTOR :=
    min_le_right _ _
  have hsq := mul_self_le_mul_self hm0 hm1
  unfold COLLISION_SPEED_FACTOR at hsq ⊢
  nlinarith

/-- C5: in the object-collision branch of the slide, the slide vector's
length is clamped to 40% of the original movement length (squared form:
`‖limited‖² ≤ (4/25)·‖velocity‖²`), and the resulting position is the spec's
retry cascade — the first non-colliding among the full clamped slide and its
75%, 50%, 25%, 10% fractions, or the resolved (pushed-out) position when all
of them still collide. -/
theorem c5_slide_clamp_and_retry_cascade (s : ℚ → ℚ) (env : Env)
    (destination velocity : Vec3) (dt : ℚ) (c : ObjEntry)
    (hcol : checkObjectCollisions env (createPlayerOBB destination) = some c)
    (hsv : 1/1000000 <
      (slideVectorOf s (resolvedPositionOf s destination c dt) velocity c).lengthSq)
    (hsq1 : sqrtExactAt s
      (slideVectorOf s (resolvedPositionOf s destination c dt) velocity c).lengthSq)
    (hsq2 : sqrtExactAt s velocity.lengthSq) :
    (objectPhase s env destination velocity dt).1 =
      slideRetrySpec env (resolvedPositionOf s destination c dt)
        (limitedSlideOf s velocity
          (slideVectorOf s (resolvedPositionOf s destination c dt) velocity c)) ∧
      (limitedSlideOf s velocity
        (slideVectorOf s (resolvedPositionOf s destination c dt) velocity c)).lengthSq ≤
        (4/25) * velocity.lengthSq := by
  constructor
  · have hbase : resolvedPositionOf s destination c dt +
        (limitedSlideOf s velocity
          (slideVectorOf s (resolvedPositionOf s destination c dt) velocity c)).scale 1 =
        resolvedPositionOf s destination c dt +
          limitedSlideOf s velocity
            (slideVectorOf s (resolvedPositionOf s destination c dt) velocity c) := by
      rw [Vec3.scale_one]
    simp only [objectPhase, hcol]
    rw [if_neg (not_le.mpr hsv)]
    by_cases hfull :
        (checkObjectCollisions env (createPlayerOBB
          (resolvedPositionOf s destination c dt +
            limitedSlideOf s velocity
              (slideVectorOf s (resolvedPositionOf s destination c dt) velocity c)))).isSome
          = true
    · rw [if_pos hfull]
      have hpred1 : (checkObjectCollisions env (createPlayerOBB
          (resolvedPositionOf s destination c dt +
            (limitedSlideOf s velocity
              (slideVectorOf s (resolvedPositionOf s destination c dt)
                velocity c)).scale 1))).isNone = false := by
        rw [hbase]
        cases ho : checkObjectCollisions env (createPlayerOBB
            (resolvedPositionOf s destination c dt +
              limitedSlideOf s velocity
                (slideVectorOf s (resolvedPositionOf s destination c dt) velocity c))) with
        | none => rw [ho] at hfull; simp at hfull
        | some x => rfl
      rw [slideRetrySpec, List.find?_cons]
      simp only [hpred1]
      cases hfind : ([3/4, 1/2, 1/4, 1/10] : List ℚ).find? (fun f =>
          (checkObjectCollisions env (createPlayerOBB
            (resolvedPositionOf s destination c dt +
              (limitedSlideOf s velocity
                (slideVectorOf s (resolvedPositionOf s destination c dt)
                  velocity c)).scale f))).isNone) with
      | none =>
        simp only [slideAttemptLoop_find env
          (resolvedPositionOf s destination c dt)
          (limitedSlideOf s velocity
            (slideVectorOf s (resolvedPositionOf s destination c dt) velocity c)),
          hfind, Option.map_none']
      | some f =>
        simp only [slideAttemptLoop_find env
          (resolvedPositionOf s destination c dt)
          (limitedSlideOf s velocity
            (slideVectorOf s (resolvedPositionOf s destination c dt) velocity c)),
          hfind, Option.map_some']
    · rw [if_neg hfull]
      have hpred1 : (checkObjectCollisions env (createPlayerOBB
          (resolvedPositionOf s destination c dt +
            limitedSlideOf s velocity
              (slideVectorOf s (resolvedPositionOf s destination c dt)
                velocity c)))).isNone = true := by
        rw [Option.not_isSome_iff_eq_none.mp hfull]
        rfl
      rw [slideRetrySpec, List.find?_cons]
      simp only [Vec3.scale_one, hpred1]
  · obtain ⟨ht1n, ht1sq⟩ := hsq1
    obtain ⟨ht2n, ht2sq⟩ := hsq2
    have hsvpos : 0 <
        (slideVectorOf s (resolvedPositionOf s destination c dt) velocity c).lengthSq := by
      linarith
    have hsvne :
        (slideVectorOf s (resolvedPositionOf s destination c dt) velocity c).lengthSq ≠ 0 :=
      ne_of_gt hsvpos
    rw [limitedSlideOf, normalizeQ, if_neg hsvne, Vec3.lengthSq_scale, Vec3.lengthSq_scale]
    exact clamp_aux _ _ _ _ ht1n ht1sq ht2n ht2sq hsvpos

/-- C5 witness: the player pressed against the object cube, sliding along
`z`; here every retry fraction still collides, so the final position is the
resolved (pushed-out) position, in agreement with the spec cascade. -/
theorem c5_witness :
    checkObjectCollisions envObj (createPlayerOBB ⟨7/10, 8/5, 0⟩) = some objCube ∧
      1/1000000 < (slideVectorOf sC5 (resolvedPositionOf sC5 ⟨7/10, 8/5, 0⟩ objCube (1/60))
        ⟨0, 0, -1/10⟩ objCube).lengthSq ∧
      ((objectPhase sC5 envObj ⟨7/10, 8/5, 0⟩ ⟨0, 0, -1/10⟩ (1/60)).1 =
        slideRetrySpec envObj (resolvedPositionOf sC5 ⟨7/10, 8/5, 0⟩ objCube (1/60))
          (limitedSlideOf sC5 ⟨0, 0, -1/10⟩
            (slideVectorOf sC5 (resolvedPositionOf sC5 ⟨7/10, 8/5, 0⟩ objCube (1/60))
              ⟨0, 0, -1/10⟩ objCube)) ∧
        (limitedSlideOf sC5 ⟨0, 0, -1/10⟩
          (slideVectorOf sC5 (resolvedPositionOf sC5 ⟨7/10, 8/5, 0⟩ objCube (1/60))
            ⟨0, 0, -1/10⟩ objCube)).lengthSq ≤
          (4/25) * (Vec3.mk 0 0 (-1/10)).lengthSq) := by
  have habs : |(7:ℚ)/10| = 7/10 := abs_of_nonneg (by norm_num)
  have hcol : checkObjectCollisions envObj (createPlayerOBB ⟨7/10, 8/5, 0⟩) =
      some objCube := by
    norm_num [checkObjectCollisions, envObj, createPlayerOBB, entryOBB, objCube,
      intersectsOBB, numberEpsilon, Vec3.dot, PLAYER_RADIUS, PLAYER_HEIGHT,
      PLAYER_EYE_HEIGHT, List.find?_cons, habs]
  have hres : resolvedPositionOf sC5 ⟨7/10, 8/5, 0⟩ objCube (1/60) = ⟨4/5, 8/5, 0⟩ := by
    norm_num [resolvedPositionOf, resolvePenetration, createPlayerOBB, entryOBB, objCube,
      normalizeQ, sC5, lenLt, Vec3.lengthSq, Vec3.scale, Vec3.zero, PLAYER_RADIUS,
      PLAYER_HEIGHT, PLAYER_EYE_HEIGHT, PLAYER_SPEED]
  have hsvv : slideVectorOf sC5 ⟨4/5, 8/5, 0⟩ ⟨0, 0, -1/10⟩ objCube =
      ⟨0, 0, -1/10⟩ := by
    norm_num [slideVectorOf, slideNormalOf, calculateCollisionNormal,
      projectOntoTangentPlane, normalizeQ, sC5, objCube, Vec3.lengthSq, Vec3.dot,
      Vec3.scale]
  have hsv : 1/1000000 <
      (slideVectorOf sC5 (resolvedPositionOf sC5 ⟨7/10, 8/5, 0⟩ objCube (1/60))
        ⟨0, 0, -1/10⟩ objCube).lengthSq := by
    rw [hres, hsvv]
    norm_num [Vec3.lengthSq]
  have hsq1 : sqrtExactAt sC5
      (slideVectorOf sC5 (resolvedPositionOf sC5 ⟨7/10, 8/5, 0⟩ objCube (1/60))
        ⟨0, 0, -1/10⟩ objCube).lengthSq := by
    rw [hres, hsvv]
    norm_num [sqrtExactAt, sC5, Vec3.lengthSq]
  have hsq2 : sqrtExactAt sC5 (Vec3.mk 0 0 (-1/10)).lengthSq := by
    norm_num [sqrtExactAt, sC5, Vec3.lengthSq]
  exact ⟨hcol, hsv,
    c5_slide_clamp_and_retry_cascade sC5 envObj ⟨7/10, 8/5, 0⟩ ⟨0, 0, -1/10⟩ (1/60)
      objCube hcol hsv hsq1 hsq2⟩

end StationDelta
